import Mathlib

/-! The proxy liveness checker: a shallow embedding.

The definitions below follow `src/lib/proxy-checker.js`, `src/lib/validator.js`,
`src/api/check-proxy-direct.js` and `src/api/update-proxy-status.js`.

Conventions of the embedding.

* A JavaScript number that the code only ever uses as an integer is an `Int`;
  `NaN` (the result of a failed `parseInt`) is `none` in an `Option Int`.
* A property that may be absent (`undefined`) or `null` is an `Option`.
* A function that can throw returns an `Except`; `try`/`catch` is a `match`
  on that result.
* A loop whose termination depends on its arguments takes a `fuel : Nat`
  and returns `none` when the fuel runs out before the loop has finished.
* Everything the code reads from outside (what happens on the wire, the clock,
  the instant a promise settles, the database) is an explicit argument.
-/

namespace ProxyChecker

/-! ## Data model -/

/-- The object `{ ip, port }` handed to the engine.  `port = none` is `NaN`. -/
structure Proxy where
  ip : String
  port : Option Int
deriving DecidableEq, Repr

/-- The error object the HTTP client rejects with: `error.code` (absent on some
errors) and `error.message`. -/
structure AxiosError where
  code : Option String
  message : String
deriving DecidableEq, Repr

/-- The part of the HTTP client's response object that the code reads. -/
structure Response where
  status : Int
deriving DecidableEq, Repr

/-- The configuration `checkSingleProxy` passes to `axios.get`, together with
the URL. -/
structure Request where
  url : String
  proxyHost : String
  proxyPort : Option Int
  timeout : Int
  userAgent : String
deriving DecidableEq, Repr

/-- The record returned by `checkSingleProxy`.  `response_time = none` is
`null`; `status_code`, `error_message` and `error_type` are `none` when the
property is absent from the object. -/
structure CheckResult where
  ip : String
  port : Option Int
  is_active : Bool
  response_time : Option Int
  status_code : Option Int
  error_message : Option String
  error_type : Option String
  checked_at : Int
deriving DecidableEq, Repr

/-- The second argument of `checkMultipleProxies`; `none` is an omitted
property, which the destructuring replaces by its default. -/
structure Options where
  timeout : Option Int := none
  concurrency : Option Int := none
  include_geoip : Option Bool := none
deriving DecidableEq, Repr

/-! ## The outside world of one probe -/

/-- What happens to one outbound request on the wire.  `response status` is a
response the HTTP client does not follow (any status; a 3xx one without a
`Location` header); `redirected next` is a 3xx response with a `Location`
header, with the fate `next` of the request the client then sends to that
location; `failure error` is a fault of the transport. -/
inductive Wire where
  | response (status : Int)
  | redirected (next : Wire)
  | failure (error : AxiosError)
deriving DecidableEq, Repr

/-- Everything one call of `checkSingleProxy` reads from outside: the fate of
its request, the two readings of `Date.now()` (before dispatch, on response),
the reading of `new Date()` put into `checked_at`, and the logical instant at
which its promise settles (used only to order completions). -/
structure ProbeEnv where
  wire : Wire
  startTime : Int
  endTime : Int
  checkedAt : Int
  settledAt : Nat
deriving DecidableEq, Repr

/-! ## The HTTP client

`axios` is a dependency of the repository.  The code calls `axios.get` with
`proxy`, `timeout` and `headers` only, so the client's defaults apply to
everything else; the defaults that matter are `validateStatus` and the
following of redirects. -/

/-- The default `validateStatus` of axios: `status >= 200 && status < 300`. -/
def validateStatus (status : Int) : Bool :=
  decide (200 ≤ status) && decide (status < 300)

/-- The error code of axios for a response its `validateStatus` turns down:
`[ERR_BAD_REQUEST, ERR_BAD_RESPONSE][Math.floor(status / 100) - 4]`. -/
def badStatusCode (status : Int) : Option String :=
  if status / 100 - 4 = 0 then some "ERR_BAD_REQUEST"
  else if status / 100 - 4 = 1 then some "ERR_BAD_RESPONSE"
  else none

/-- The `settle` step of axios: a response resolves the promise when
`!response.status || validateStatus(response.status)`, and rejects it with
`Request failed with status code <status>` otherwise. -/
def settle (response : Response) : Except AxiosError Response :=
  if response.status = 0 ∨ validateStatus response.status = true then
    .ok response
  else
    .error { code := badStatusCode response.status,
             message := "Request failed with status code " ++ toString response.status }

/-- The number of redirects the client follows when `maxRedirects` is not
set, as here: the default of the `follow-redirects` transport of axios. -/
def maxRedirects : Nat := 21

/-- The transport of axios under Node: a 3xx response with a `Location` header
is followed by a further request, up to `budget` times, after which the
request fails with `ERR_FR_TOO_MANY_REDIRECTS`; the response that is not
followed goes to `settle`. -/
def followRedirects : Nat → Wire → Except AxiosError Response
  | _, .response status => settle { status := status }
  | _, .failure error => .error error
  | 0, .redirected _ =>
    .error { code := some "ERR_FR_TOO_MANY_REDIRECTS",
             message := "Maximum number of redirects exceeded" }
  | budget + 1, .redirected next => followRedirects budget next

/-- The call `axios.get(url, config)` under a given fate of the request. -/
def axiosGet (net : Wire) (_config : Request) : Except AxiosError Response :=
  followRedirects maxRedirects net

/-! ## `src/lib/proxy-checker.js` -/

/-- The function `getErrorType` (lines 58-63). -/
def getErrorType (error : AxiosError) : String :=
  if error.code = some "ECONNABORTED" then "timeout"
  else if error.code = some "ECONNREFUSED" then "connection_refused"
  else if error.code = some "ENOTFOUND" then "host_not_found"
  else "unknown"

/-- The four values `error_type` can take. -/
def errorKinds : List String :=
  ["timeout", "connection_refused", "host_not_found", "unknown"]

/-- An asynchronous call that has been started: the requests it handed to the
HTTP client, the instant its promise settles, and what it settles with
(`.ok` fulfilled, `.error` rejected). -/
structure Promise (α : Type) where
  sent : List Request
  settledAt : Nat
  result : Except AxiosError α

/-- The configuration object of lines 8-17. -/
def probeRequest (proxy : Proxy) (timeout : Int) : Request :=
  { url := "https://httpbin.org/ip",
    proxyHost := proxy.ip,
    proxyPort := proxy.port,
    timeout := timeout,
    userAgent := "Mozilla/5.0 (Windows NT 10.0; Win64; x64) AppleWebKit/537.36" }

/-- The function `checkSingleProxy` (lines 3-38).  The `try` block is the
`.ok` branch of the match, the `catch` block the `.error` branch. -/
def checkSingleProxy (env : ProbeEnv) (proxy : Proxy) (timeout : Int := 5000) :
    Promise CheckResult :=
  let ip := proxy.ip
  let port := proxy.port
  let startTime := env.startTime
  let config := probeRequest proxy timeout
  { sent := [config],
    settledAt := env.settledAt,
    result :=
      match axiosGet env.wire config with
      | .ok response =>
        .ok { ip := ip,
              port := port,
              is_active := true,
              response_time := some (env.endTime - startTime),
              status_code := some response.status,
              error_message := none,
              error_type := none,
              checked_at := env.checkedAt }
      | .error error =>
        .ok { ip := ip,
              port := port,
              is_active := false,
              response_time := none,
              status_code := none,
              error_message := some error.message,
              error_type := some (getErrorType error),
              checked_at := env.checkedAt } }

/-- The method `Array.prototype.slice(start, end)` on integer arguments:
a negative index counts from the end, both are clamped to `0..length`. -/
def jsSlice {α : Type} (xs : List α) (start stop : Int) : List α :=
  let len : Int := xs.length
  let k : Int := if start < 0 then max (len + start) 0 else min start len
  let final : Int := if stop < 0 then max (len + stop) 0 else min stop len
  (xs.drop k.toNat).take (final - k).toNat

/-- The order in which the promises of a list settle: their positions, sorted
by the instant each one settles (ties keep the order of dispatch). -/
def completionOrder {α : Type} (ps : List (Promise α)) : List (Nat × Promise α) :=
  List.insertionSort (fun a b => a.2.settledAt ≤ b.2.settledAt) ps.enum

/-- The reaction of `Promise.all` to the settlements in the order they happen:
a fulfilment stores its value at the promise's own position, the first
rejection rejects the aggregate. -/
def promiseAllSettle {α : Type} :
    List (Nat × Promise α) → List (Option α) → Except AxiosError (List (Option α))
  | [], values => .ok values
  | (index, p) :: rest, values =>
    match p.result with
    | .error e => .error e
    | .ok v => promiseAllSettle rest (values.set index (some v))

/-- All values of a list of slots, when every slot has been filled. -/
def collect {α : Type} : List (Option α) → Option (List α)
  | [] => some []
  | none :: _ => none
  | some v :: rest => (collect rest).map (fun vs => v :: vs)

/-- The call `await Promise.all(promises)`: `some (.ok values)` when the
aggregate is fulfilled, with the values in the order of `promises`;
`some (.error e)` when it is rejected; `none` while a slot stays empty. -/
def promiseAll {α : Type} (ps : List (Promise α)) : Option (Except AxiosError (List α)) :=
  match promiseAllSettle (completionOrder ps) (List.replicate ps.length none) with
  | .error e => some (.error e)
  | .ok values => (collect values).map Except.ok

/-- The state of the loop of `checkMultipleProxies`: the loop variable `i`
and the array `results`, plus two records of what has been done so far,
the requests handed to the HTTP client (in dispatch order) and the batches
dispatched (one per iteration). -/
structure LoopState where
  i : Int
  results : List CheckResult
  sent : List Request
  waves : List (List Proxy)
deriving DecidableEq, Repr

/-- The `for` loop of lines 48-53.  `world k` is the outside world of the
`k`-th call of `checkSingleProxy` of the run (counting from 0).  The result is
`none` when the loop has not finished within `fuel` iterations or an `await`
never resumes, `some (.error e)` when an `await` throws. -/
def checkMultipleProxiesLoop (world : Nat → ProbeEnv) (proxies : List Proxy)
    (timeout concurrency : Int) : Nat → LoopState → Option (Except AxiosError LoopState)
  | 0, _ => none
  | fuel + 1, st =>
    if st.i < (proxies.length : Int) then
      let batch := jsSlice proxies st.i (st.i + concurrency)
      let batchPromises :=
        (batch.enumFrom st.sent.length).map
          (fun kp => checkSingleProxy (world kp.1) kp.2 timeout)
      match promiseAll batchPromises with
      | none => none
      | some (.error e) => some (.error e)
      | some (.ok batchResults) =>
        checkMultipleProxiesLoop world proxies timeout concurrency fuel
          { i := st.i + concurrency,
            results := st.results ++ batchResults,
            sent := st.sent ++ (batchPromises.map (fun p => p.sent)).flatten,
            waves := st.waves ++ [batch] }
    else
      some (.ok st)

/-- The body of `checkMultipleProxies` (lines 40-56) with its final loop
state: the defaults of the destructuring, then the loop from `i = 0`. -/
def checkMultipleProxiesRun (world : Nat → ProbeEnv) (proxies : List Proxy)
    (options : Options) (fuel : Nat) : Option (Except AxiosError LoopState) :=
  let timeout := options.timeout.getD 5000
  let concurrency := options.concurrency.getD 10
  checkMultipleProxiesLoop world proxies timeout concurrency fuel
    { i := 0, results := [], sent := [], waves := [] }

/-- The function `checkMultipleProxies` (lines 40-56): what it returns. -/
def checkMultipleProxies (world : Nat → ProbeEnv) (proxies : List Proxy)
    (options : Options := {}) (fuel : Nat) : Option (Except AxiosError (List CheckResult)) :=
  (checkMultipleProxiesRun world proxies options fuel).map (fun r => r.map (fun st => st.results))

/-- The record a probe settles with, as a function of its outside world.  A
probe always settles with a record (`checkSingleProxy_result`), so the second
branch is never taken. -/
def probeRecord (env : ProbeEnv) (proxy : Proxy) (timeout : Int) : CheckResult :=
  match (checkSingleProxy env proxy timeout).result with
  | .ok r => r
  | .error _ =>
    { ip := proxy.ip, port := proxy.port, is_active := false, response_time := none,
      status_code := none, error_message := none, error_type := none,
      checked_at := env.checkedAt }

/-! ## `src/lib/validator.js` -/

/-- The code points that `String.prototype.trim` and `parseInt` skip: the
white space and line terminators of ECMAScript. -/
def isJsWhitespace (c : Char) : Bool :=
  c.toNat ∈ [0x09, 0x0A, 0x0B, 0x0C, 0x0D, 0x20, 0xA0, 0x1680, 0x2028, 0x2029, 0x202F,
    0x205F, 0x3000, 0xFEFF] || (decide (0x2000 ≤ c.toNat) && decide (c.toNat ≤ 0x200A))

/-- The method `String.prototype.split(sep)` for a separator of one character,
on the characters of the string. -/
def jsSplit (sep : Char) : List Char → List (List Char)
  | [] => [[]]
  | c :: cs =>
    if c = sep then [] :: jsSplit sep cs
    else
      match jsSplit sep cs with
      | [] => [[c]]
      | seg :: segs => (c :: seg) :: segs

/-- The method `String.prototype.trim`, on the characters of the string. -/
def jsTrim (cs : List Char) : List Char :=
  ((cs.dropWhile isJsWhitespace).reverse.dropWhile isJsWhitespace).reverse

/-- The value of a character as a digit of the given radix (10 or 16). -/
def digitValue (radix : Nat) (c : Char) : Option Nat :=
  if decide (0x30 ≤ c.toNat) && decide (c.toNat ≤ 0x39) then some (c.toNat - 0x30)
  else if radix = 16 && decide (0x61 ≤ c.toNat) && decide (c.toNat ≤ 0x66) then
    some (c.toNat - 0x61 + 10)
  else if radix = 16 && decide (0x41 ≤ c.toNat) && decide (c.toNat ≤ 0x46) then
    some (c.toNat - 0x41 + 10)
  else none

/-- The digits at the start of the text, up to the first character that is not
a digit of the radix. -/
def leadingDigits (radix : Nat) : List Char → List Nat
  | [] => []
  | c :: cs =>
    match digitValue radix c with
    | some d => d :: leadingDigits radix cs
    | none => []

/-- The function `parseInt(string)` without a radix: leading white space is
skipped, a sign is read, `0x`/`0X` selects radix 16, then the longest run of
digits is the value and whatever follows is ignored; `none` is `NaN` (no
digit).  The value is kept exact; `parseInt` rounds it to a double, which
differs only beyond 2^53, far above every port `validateProxy` accepts. -/
def jsParseInt (cs : List Char) : Option Int :=
  let s := cs.dropWhile isJsWhitespace
  let (sign, s) : Int × List Char :=
    match s with
    | '-' :: rest => (-1, rest)
    | '+' :: rest => (1, rest)
    | _ => (1, s)
  let (radix, s) : Nat × List Char :=
    match s with
    | '0' :: 'x' :: rest => (16, rest)
    | '0' :: 'X' :: rest => (16, rest)
    | _ => (10, s)
  match leadingDigits radix s with
  | [] => none
  | ds => some (sign * (ds.foldl (fun acc d => acc * radix + d) 0 : Nat))

/-- The function `parseProxyString` (lines 28-34).  The destructuring takes the
first two pieces of the split; without a colon `port` is `undefined` and
`port.trim()` throws a `TypeError`. -/
def parseProxyString (proxyString : String) : Except String Proxy :=
  match jsSplit ':' proxyString.toList with
  | ip :: port :: _ =>
    .ok { ip := String.mk (jsTrim ip), port := jsParseInt (jsTrim port) }
  | _ => .error "TypeError: Cannot read properties of undefined (reading 'trim')"

/-- One octet of the IPv4 pattern of Joi,
`0{0,2}\d|0?[1-9]\d|1\d\d|2[0-4]\d|25[0-5]`: one to three decimal digits with
a value of at most 255. -/
def isIPv4Octet (cs : List Char) : Bool :=
  decide (1 ≤ cs.length) && decide (cs.length ≤ 3) &&
    cs.all (fun c => (digitValue 10 c).isSome) &&
    decide ((leadingDigits 10 cs).foldl (fun acc d => acc * 10 + d) 0 ≤ 255)

/-- The rule `Joi.string().ip({ version: ['ipv4'] })`: four octets separated
by dots, optionally followed by `/` and a CIDR prefix length
`\d|[1-2]\d|3[0-2]` (the `cidr` option of Joi is `optional` unless set). -/
def joiIPv4 (cs : List Char) : Bool :=
  match jsSplit '/' cs with
  | [address] =>
    match jsSplit '.' address with
    | [a, b, c, d] => isIPv4Octet a && isIPv4Octet b && isIPv4Octet c && isIPv4Octet d
    | _ => false
  | [address, cidr] =>
    (match jsSplit '.' address with
     | [a, b, c, d] => isIPv4Octet a && isIPv4Octet b && isIPv4Octet c && isIPv4Octet d
     | _ => false) &&
    (match cidr with
     | [d] => (digitValue 10 d).isSome
     | [t, d] => (t = '1' || t = '2') && (digitValue 10 d).isSome ||
         t = '3' && (d = '0' || d = '1' || d = '2')
     | _ => false)
  | _ => false

/-- The result of `validateProxy`: `{ isValid, error, value }`. -/
structure ValidationResult where
  isValid : Bool
  error : Option String
  value : Proxy
deriving DecidableEq, Repr

/-- The error of `proxySchema.validate(proxy)` (lines 3-12), `none` when the
object passes: `ip` must be an IPv4 address, `port` an integer from 1 to
65535.  Joi stops at the first failure, `ip` before `port`. -/
def proxySchemaError (proxy : Proxy) : Option String :=
  if proxy.ip = "" then some "\"ip\" is not allowed to be empty"
  else if joiIPv4 proxy.ip.toList = false then
    some "\"ip\" must be a valid ip address of one of the following versions [ipv4] with a optional CIDR"
  else
    match proxy.port with
    | none => some "\"port\" must be a number"
    | some port =>
      if port < 1 then some "\"port\" must be greater than or equal to 1"
      else if 65535 < port then some "\"port\" must be less than or equal to 65535"
      else none

/-- The function `validateProxy` (lines 36-39). -/
def validateProxy (proxy : Proxy) : ValidationResult :=
  let error := proxySchemaError proxy
  { isValid := error.isNone, error := error, value := proxy }

/-- Whether the text is one to `n` decimal digits (`\d{1,n}`). -/
def isDigits (n : Nat) (cs : List Char) : Bool :=
  decide (1 ≤ cs.length) && decide (cs.length ≤ n) && cs.all (fun c => (digitValue 10 c).isSome)

/-- The pattern of `proxyListSchema` (line 15),
`/^(\d{1,3}\.){3}\d{1,3}:\d{1,5}$/`: four groups of one to three digits
separated by dots, a colon, one to five digits, and nothing else. -/
def matchesProxyPattern (s : String) : Bool :=
  match jsSplit ':' s.toList with
  | [address, port] =>
    (match jsSplit '.' address with
     | [a, b, c, d] => isDigits 3 a && isDigits 3 b && isDigits 3 c && isDigits 3 d
     | _ => false) && isDigits 5 port
  | _ => false

/-- The body of a POST request to either handler, as far as the code reads it. -/
structure PostBody where
  proxies : Option (List String) := none
  options : Option Options := none
  user_id : Option String := none
deriving DecidableEq, Repr

/-- The error of `checkProxyDirectSchema.validate(body)` (lines 14-26), `none`
when the body passes.  A key the schema does not name (`user_id`) is not
allowed. -/
def checkProxyDirectSchemaError (body : PostBody) : Option String :=
  match body.proxies with
  | none => some "\"proxies\" is required"
  | some proxies =>
    if proxies.any (fun s => !matchesProxyPattern s) then
      some "\"proxies\" contains a value that fails to match the required pattern"
    else if proxies.length < 1 then some "\"proxies\" must contain at least 1 items"
    else if 1000 < proxies.length then
      some "\"proxies\" must contain less than or equal to 1000 items"
    else
      let optionsError : Option String :=
        match body.options with
        | none => none
        | some options =>
          if (options.timeout.getD 5000) < 1000 then
            some "\"options.timeout\" must be greater than or equal to 1000"
          else if 30000 < (options.timeout.getD 5000) then
            some "\"options.timeout\" must be less than or equal to 30000"
          else if (options.concurrency.getD 10) < 1 then
            some "\"options.concurrency\" must be greater than or equal to 1"
          else if 50 < (options.concurrency.getD 10) then
            some "\"options.concurrency\" must be less than or equal to 50"
          else none
      match optionsError with
      | some e => some e
      | none => if body.user_id.isSome then some "\"user_id\" is not allowed" else none

/-! ## Collaborators of the handlers: geolocation and the database -/

/-- The object `getGeoIP` returns (`src/lib/geoip.js`); every property is
`null` when both providers fail.  The coordinates are kept as text. -/
structure GeoData where
  country_code : Option String := none
  country_name : Option String := none
  city : Option String := none
  region : Option String := none
  isp : Option String := none
  org : Option String := none
  latitude : Option String := none
  longitude : Option String := none
deriving DecidableEq, Repr

/-- A check result after the handlers' geolocation step: the spread
`{ ...result, ...geoData }` adds the properties of `geoData`, none of which
is a property of a check result; `geo = none` when the step is skipped. -/
structure EnrichedResult extends CheckResult where
  geo : Option GeoData := none
deriving DecidableEq, Repr

/-- The error object of the database client. -/
structure DbError where
  message : String
deriving DecidableEq, Repr

/-- How one `insert` or `update` of the database client ends: it returns
`{ error: null }`, it returns `{ error }`, or the call throws. -/
inductive WriteOutcome where
  | ok
  | failed (error : DbError)
  | threw (error : DbError)
deriving DecidableEq, Repr

/-- How the lookup `select('id')...single()` ends: it returns a record, it
returns `{ data: null }` (no row, or an error reported in `fetchError`, which
the code does not read), or the call throws. -/
inductive FetchOutcome where
  | found (id : Nat)
  | notFound
  | threw (error : DbError)
deriving DecidableEq, Repr

/-- The database's behaviour for the `k`-th result of `updateProxyStatuses`:
the lookup, and the write that follows it. -/
structure RowOutcome where
  fetch : FetchOutcome
  write : WriteOutcome
deriving DecidableEq, Repr

/-- The response a handler sends: `res.status(status).json(body)`. -/
structure HttpResponse (β : Type) where
  status : Nat
  body : β
deriving DecidableEq, Repr

/-- The call `await supabase.from('proxy_checks').insert(...)` (or `update`):
the `error` property of what it returns, unless it throws. -/
def dbWrite (outcome : WriteOutcome) : Except DbError (Option DbError) :=
  match outcome with
  | .ok => .ok none
  | .failed error => .ok (some error)
  | .threw error => .error error

/-- The geolocation step of the handlers for one result (lines 101-109 of
`check-proxy-direct.js`, 37-45 of `update-proxy-status.js`). -/
def addGeoIP (getGeoIP : String → GeoData) (result : CheckResult) : EnrichedResult :=
  if result.is_active then { toCheckResult := result, geo := some (getGeoIP result.ip) }
  else { toCheckResult := result, geo := none }

/-- The geolocation loop over all results, skipped when
`options.include_geoip === false`. -/
def addGeoIPAll (getGeoIP : String → GeoData) (options : Options)
    (results : List CheckResult) : List EnrichedResult :=
  if options.include_geoip ≠ some false then results.map (addGeoIP getGeoIP)
  else results.map (fun r => { toCheckResult := r, geo := none })

/-! ## `src/api/check-proxy-direct.js` -/

namespace CheckProxyDirect

/-- The bodies this handler responds with. -/
inductive Body where
  | error (error : String) (details : Option String)
  | invalidProxies (error : String) (invalid_proxies : List (Option String))
  | single (result : EnrichedResult)
  | checked (message : String) (total_checked active_proxies inactive_proxies : Int)
      (results : List EnrichedResult)
deriving DecidableEq, Repr

/-- The query and URL of a GET request. -/
structure GetRequest where
  proxy : Option String := none
  ip : Option String := none
  port : Option String := none
  user_id : Option String := none
  url : String := ""
deriving DecidableEq, Repr

/-- Whether a query parameter is truthy: present and not the empty string. -/
def truthy (s : Option String) : Bool :=
  match s with
  | some v => v ≠ ""
  | none => false

/-- The function `saveProxyResult` (lines 132-157): the insert is awaited
inside `try`, and `catch` only logs. -/
def saveProxyResult (db : WriteOutcome) (_result : EnrichedResult) (_user_id : String) :
    Except DbError Unit :=
  match dbWrite db with
  | .ok _ => .ok ()
  | .error _ => .ok ()

/-- The loop of `saveProxyResults` (lines 181-185): one insert per slice of
`batchSize = 100` rows; `db k` is the fate of the insert of the slice that
starts at row `100 * k`. -/
def saveProxyResultsLoop (db : Nat → WriteOutcome) (length : Nat) (i : Nat) :
    Except DbError Unit :=
  if i < length then
    match dbWrite (db (i / 100)) with
    | .error e => .error e
    | .ok _ => saveProxyResultsLoop db length (i + 100)
  else .ok ()
termination_by length - i
decreasing_by omega

/-- The function `saveProxyResults` (lines 159-189): the loop runs inside
`try`, and `catch` only logs. -/
def saveProxyResults (db : Nat → WriteOutcome) (results : List EnrichedResult)
    (_user_id : String) : Except DbError Unit :=
  match saveProxyResultsLoop db results.length 0 with
  | .ok _ => .ok ()
  | .error _ => .ok ()

/-- The proxy a GET request names (lines 22-44): from `query.proxy`, from
`query.ip` and `query.port`, or from the last segment of the path.  The outer
`.error` is a thrown `TypeError`, the inner one the 400 response. -/
def requestedProxy (req : GetRequest) : Except String (Except (HttpResponse Body) Proxy) :=
  if truthy req.proxy then
    (parseProxyString (req.proxy.getD "")).map Except.ok
  else if truthy req.ip && truthy req.port then
    .ok (.ok { ip := req.ip.getD "", port := jsParseInt (req.port.getD "").toList })
  else
    let proxyString := String.mk ((jsSplit '/' req.url.toList).getLast?.getD [])
    if ':' ∈ proxyString.toList then
      (parseProxyString proxyString).map Except.ok
    else
      .ok (.error { status := 400, body := .error "Invalid proxy format" none })

/-- Lines 52-64 of `handleGetRequest`: what the handler does once the probe
has produced `result`. -/
def respondSingle (getGeoIP : String → GeoData) (db : WriteOutcome) (user_id : String)
    (result : CheckResult) : Except DbError (HttpResponse Body) :=
  let result := addGeoIP getGeoIP result
  match saveProxyResult db result user_id with
  | .error e => .error e
  | .ok _ => .ok { status := 200, body := .single result }

/-- The function `handleGetRequest` (lines 20-70). -/
def handleGetRequest (env : ProbeEnv) (getGeoIP : String → GeoData) (db : WriteOutcome)
    (req : GetRequest) : HttpResponse Body :=
  let internalError : HttpResponse Body :=
    { status := 500, body := .error "Internal server error" none }
  match requestedProxy req with
  | .error _ => internalError
  | .ok (.error response) => response
  | .ok (.ok proxy) =>
    let validation := validateProxy proxy
    if !validation.isValid then
      { status := 400, body := .error (validation.error.getD "") none }
    else
      match (checkSingleProxy env proxy).result with
      | .error _ => internalError
      | .ok result =>
        match respondSingle getGeoIP db (if truthy req.user_id then req.user_id.getD "" else "anonymous")
            result with
        | .error _ => internalError
        | .ok response => response

/-- Lines 74-96 of `handlePostRequest`: the checks a body passes before the
engine is called.  `.ok (.ok call)` is the call `checkMultipleProxies(proxies,
options)` with the user id kept for later; `.ok (.error r)` is a response sent
instead; the outer `.error` is a throw. -/
def beforeCheck (body : PostBody) :
    Except String (Except (HttpResponse Body) (List Proxy × Options × String)) :=
  match checkProxyDirectSchemaError body with
  | some message =>
    .ok (.error { status := 400, body := .error "Invalid request format" (some message) })
  | none =>
    let proxyStrings := body.proxies.getD []
    let options := body.options.getD {}
    let user_id := if CheckProxyDirect.truthy body.user_id then body.user_id.getD "" else "anonymous"
    match proxyStrings.mapM parseProxyString with
    | .error e => .error e
    | .ok proxies =>
      let validationResults := proxies.map validateProxy
      let invalidProxies := validationResults.filter (fun r => !r.isValid)
      if invalidProxies.length > 0 then
        .ok (.error { status := 400,
                      body := .invalidProxies "Invalid proxy format"
                        (invalidProxies.map (fun r => r.error)) })
      else .ok (.ok (proxies, options, user_id))

/-- Lines 101-124 of `handlePostRequest`: what the handler does once the
engine has returned `results`. -/
def respondChecked (getGeoIP : String → GeoData) (db : Nat → WriteOutcome) (options : Options)
    (user_id : String) (results : List CheckResult) : Except DbError (HttpResponse Body) :=
  let results := addGeoIPAll getGeoIP options results
  match saveProxyResults db results user_id with
  | .error e => .error e
  | .ok _ =>
    let activeCount := (results.filter (fun r => r.is_active)).length
    let inactiveCount : Int := (results.length : Int) - (activeCount : Int)
    .ok { status := 200,
          body := .checked "Proxy check completed" results.length activeCount inactiveCount
            results }

/-- The function `handlePostRequest` (lines 72-130); `none` when the handler
never responds (the engine does not return within `fuel` iterations). -/
def handlePostRequest (world : Nat → ProbeEnv) (getGeoIP : String → GeoData)
    (db : Nat → WriteOutcome) (body : PostBody) (fuel : Nat) : Option (HttpResponse Body) :=
  let internalError : HttpResponse Body :=
    { status := 500, body := .error "Internal server error" none }
  match beforeCheck body with
  | .error _ => some internalError
  | .ok (.error response) => some response
  | .ok (.ok (proxies, options, user_id)) =>
    match checkMultipleProxies world proxies options fuel with
    | none => none
    | some (.error _) => some internalError
    | some (.ok results) =>
      match respondChecked getGeoIP db options user_id results with
      | .error _ => some internalError
      | .ok response => some response

end CheckProxyDirect

/-! ## `src/api/update-proxy-status.js` -/

namespace UpdateProxyStatus

/-- The object `summary` of `updateProxyStatuses`. -/
structure Summary where
  total_proxies : Nat
  updated_existing : Nat
  created_new : Nat
  failed_updates : Nat
deriving DecidableEq, Repr

/-- One entry of `details`: `{ ...result, action }` for a result that was
written (`result` holds the spread, `error` is absent), and
`{ ip, port, error, action: 'failed' }` for one that was not (`result` is
absent: the entry has no other property). -/
structure Detail where
  ip : String
  port : Option Int
  action : String
  result : Option EnrichedResult
  error : Option String
deriving DecidableEq, Repr

/-- The bodies this handler responds with. -/
inductive Body where
  | error (error : String)
  | invalidProxies (error : String) (invalid_proxies : List (Option String))
  | updated (message : String) (summary : Summary) (results : List Detail)
deriving DecidableEq, Repr

/-- The `try` block of the loop body (lines 74-140) for one result: the
action it ends with, or the error it throws. -/
def writeResult (ops : RowOutcome) (_user_id : String) (_result : EnrichedResult) :
    Except DbError String :=
  match ops.fetch with
  | .threw e => .error e
  | .found _ =>
    match dbWrite ops.write with
    | .error e => .error e
    | .ok (some updateError) => .error updateError
    | .ok none => .ok "updated"
  | .notFound =>
    match dbWrite ops.write with
    | .error e => .error e
    | .ok (some insertError) => .error insertError
    | .ok none => .ok "created"

/-- The `for ... of` loop of `updateProxyStatuses` (lines 72-151); `db k` is
the database's behaviour for the result at position `k`. -/
def updateProxyStatusesLoop (db : Nat → RowOutcome) (user_id : String) :
    Nat → List EnrichedResult → Summary × List Detail → Summary × List Detail
  | _, [], acc => acc
  | k, result :: rest, (summary, details) =>
    match writeResult (db k) user_id result with
    | .ok action =>
      let summary :=
        if action = "updated" then { summary with updated_existing := summary.updated_existing + 1 }
        else { summary with created_new := summary.created_new + 1 }
      updateProxyStatusesLoop db user_id (k + 1) rest
        (summary,
         details ++ [{ ip := result.ip, port := result.port, action := action,
                       result := some result, error := none }])
    | .error error =>
      updateProxyStatusesLoop db user_id (k + 1) rest
        ({ summary with failed_updates := summary.failed_updates + 1 },
         details ++ [{ ip := result.ip, port := result.port, action := "failed",
                       result := none, error := some error.message }])

/-- The function `updateProxyStatuses` (lines 62-154). -/
def updateProxyStatuses (db : Nat → RowOutcome) (user_id : String)
    (results : List EnrichedResult) : Summary × List Detail :=
  updateProxyStatusesLoop db user_id 0 results
    ({ total_proxies := results.length, updated_existing := 0, created_new := 0,
       failed_updates := 0 }, [])

/-- Lines 12-32 of `handler`: the checks a body passes before the engine is
called.  `.ok (.ok call)` is the call `checkMultipleProxies(proxies, options)`
with the user id kept for later; `.ok (.error r)` is a response sent instead;
the outer `.error` is a throw. -/
def beforeCheck (body : PostBody) :
    Except String (Except (HttpResponse Body) (List Proxy × Options × String)) :=
  let options := body.options.getD {}
  if !CheckProxyDirect.truthy body.user_id then
    .ok (.error { status := 400, body := .error "User ID is required" })
  else
    match body.proxies with
    | none => .ok (.error { status := 400, body := .error "Proxies array is required" })
    | some proxyStrings =>
      if proxyStrings.length = 0 then
        .ok (.error { status := 400, body := .error "Proxies array is required" })
      else
        match proxyStrings.mapM parseProxyString with
        | .error e => .error e
        | .ok proxies =>
          let validationResults := proxies.map validateProxy
          let invalidProxies := validationResults.filter (fun r => !r.isValid)
          if invalidProxies.length > 0 then
            .ok (.error { status := 400,
                          body := .invalidProxies "Invalid proxy format"
                            (invalidProxies.map (fun r => r.error)) })
          else .ok (.ok (proxies, options, body.user_id.getD ""))

/-- Lines 37-54 of `handler`: what the handler does once the engine has
returned `results`. -/
def respondUpdated (getGeoIP : String → GeoData) (db : Nat → RowOutcome) (options : Options)
    (user_id : String) (results : List CheckResult) : HttpResponse Body :=
  let results := addGeoIPAll getGeoIP options results
  let updateResults := updateProxyStatuses db user_id results
  { status := 200,
    body := .updated "Proxy statuses updated" updateResults.1 updateResults.2 }

/-- The function `handler` (lines 6-60) for a request with the given method;
`none` when the handler never responds (the engine does not return within
`fuel` iterations). -/
def handler (world : Nat → ProbeEnv) (getGeoIP : String → GeoData) (db : Nat → RowOutcome)
    (method : String) (body : PostBody) (fuel : Nat) : Option (HttpResponse Body) :=
  if method ≠ "POST" then
    some { status := 405, body := .error "Method not allowed" }
  else
    let internalError : HttpResponse Body :=
      { status := 500, body := .error "Internal server error" }
    match beforeCheck body with
    | .error _ => some internalError
    | .ok (.error response) => some response
    | .ok (.ok (proxies, options, user_id)) =>
      match checkMultipleProxies world proxies options fuel with
      | none => none
      | some (.error _) => some internalError
      | some (.ok results) => some (respondUpdated getGeoIP db options user_id results)

end UpdateProxyStatus

/-- The entry of `details` that one iteration of the loop of
`updateProxyStatuses` appends for the result at position `k`. -/
def UpdateProxyStatus.detailOf (db : Nat → RowOutcome) (user_id : String) (k : Nat)
    (result : EnrichedResult) : UpdateProxyStatus.Detail :=
  match UpdateProxyStatus.writeResult (db k) user_id result with
  | .ok action =>
    { ip := result.ip, port := result.port, action := action, result := some result,
      error := none }
  | .error error =>
    { ip := result.ip, port := result.port, action := "failed", result := none,
      error := some error.message }

/-! ## Lemmas on `Promise.all`, `slice` and the loop -/

theorem collect_map_some {α : Type} (vals : List α) : collect (vals.map some) = some vals := by
  induction vals with
  | nil => rfl
  | cons v vs ih => simp [collect, ih]

/-- Settling a list of fulfilled promises fills exactly their own slots. -/
theorem promiseAllSettle_ok {α : Type} (vals : List α) (l : List (Nat × Promise α)) :
    ∀ values : List (Option α),
      (∀ x ∈ l, ∃ v, x.2.result = .ok v ∧ vals[x.1]? = some v) →
      ∃ filled, promiseAllSettle l values = .ok filled ∧
        ∀ j, filled[j]? =
          if (∃ x ∈ l, x.1 = j) ∧ j < values.length then some (vals[j]?) else values[j]? := by
  induction l with
  | nil => intro values _; exact ⟨values, rfl, by simp⟩
  | cons x rest ih =>
    intro values h
    obtain ⟨v, hv, hval⟩ := h x (List.mem_cons_self _ _)
    obtain ⟨filled, hf, hget⟩ :=
      ih (values.set x.1 (some v)) (fun y hy => h y (List.mem_cons_of_mem _ hy))
    refine ⟨filled, ?_, ?_⟩
    · obtain ⟨index, p⟩ := x
      simp only [promiseAllSettle]
      simp only at hv
      rw [hv]
      exact hf
    · intro j
      rw [hget j]
      simp only [List.length_set, List.mem_cons, exists_eq_or_imp, List.getElem?_set]
      by_cases hj : j < values.length
      · by_cases hx : x.1 = j
        · subst hx
          simp [hj, hval]
        · by_cases hr : ∃ y ∈ rest, y.1 = j
          · simp [hj, hx, hr]
          · simp [hj, hx, hr]
      · have hnone : values[j]? = none := List.getElem?_eq_none (by omega)
        by_cases hx : x.1 = j
        · subst hx
          simp [hj, hnone]
        · simp [hj, hx]

/-- When every promise of the list is fulfilled, `Promise.all` is fulfilled
with their values in the order of the list, whatever the order of settling. -/
theorem promiseAll_ok {α : Type} (ps : List (Promise α)) (vals : List α)
    (h : ps.map (fun p => p.result) = vals.map Except.ok) :
    promiseAll ps = some (.ok vals) := by
  have hlen : ps.length = vals.length := by
    have := congrArg List.length h
    simpa using this
  have hmem : ∀ x : Nat × Promise α, x ∈ completionOrder ps ↔ ps[x.1]? = some x.2 := by
    intro x
    unfold completionOrder
    rw [(List.perm_insertionSort _ _).mem_iff]
    exact List.mem_enum_iff_getElem?
  have hres : ∀ (j : Nat) (p : Promise α), ps[j]? = some p →
      ∃ v, p.result = .ok v ∧ vals[j]? = some v := by
    intro j p hp
    have hj := congrArg (fun l => l[j]?) h
    simp only [List.getElem?_map, hp, Option.map_some'] at hj
    cases hv : vals[j]? with
    | none => simp [hv] at hj
    | some v =>
      refine ⟨v, ?_, rfl⟩
      simpa [hv] using hj
  obtain ⟨filled, hf, hget⟩ := promiseAllSettle_ok vals (completionOrder ps)
    (List.replicate ps.length none) (fun x hx => hres x.1 x.2 ((hmem x).1 hx))
  have hfilled : filled = vals.map some := by
    apply List.ext_getElem?
    intro j
    rw [hget j, List.getElem?_map]
    by_cases hj : j < ps.length
    · have hin : ∃ x ∈ completionOrder ps, x.1 = j := by
        refine ⟨(j, ps[j]), (hmem _).2 ?_, rfl⟩
        simp [List.getElem?_eq_getElem hj]
      have hv : j < vals.length := by omega
      simp [hin, hj, List.getElem?_eq_getElem hv]
    · have hv : vals[j]? = none := List.getElem?_eq_none (by omega)
      have hj2 : ps.length ≤ j := by omega
      simp [hj, hv, hj2]
  unfold promiseAll
  rw [hf, hfilled]
  simp only [collect_map_some]
  rfl

theorem checkSingleProxy_result (env : ProbeEnv) (proxy : Proxy) (timeout : Int) :
    (checkSingleProxy env proxy timeout).result = .ok (probeRecord env proxy timeout) := by
  unfold probeRecord checkSingleProxy
  dsimp only
  cases axiosGet env.wire (probeRequest proxy timeout) <;> rfl

theorem checkSingleProxy_sent (env : ProbeEnv) (proxy : Proxy) (timeout : Int) :
    (checkSingleProxy env proxy timeout).sent = [probeRequest proxy timeout] := rfl

theorem jsSlice_natCast {α : Type} (xs : List α) (a c : Nat) :
    jsSlice xs (a : Int) ((a : Int) + (c : Int)) = (xs.drop a).take c := by
  unfold jsSlice
  have h1 : ¬ ((a : Int) < 0) := by omega
  have h2 : ¬ ((a : Int) + (c : Int) < 0) := by omega
  simp only [h1, h2, if_false]
  have hk : (min (a : Int) (xs.length : Int)).toNat = min a xs.length := by omega
  have hf : (min ((a : Int) + (c : Int)) (xs.length : Int) - min (a : Int) (xs.length : Int)).toNat
      = min (a + c) xs.length - min a xs.length := by omega
  rw [hk, hf]
  by_cases ha : a < xs.length
  · rw [Nat.min_eq_left (Nat.le_of_lt ha), List.take_eq_take, List.length_drop]
    omega
  · have hd : xs.drop a = [] := List.drop_eq_nil_of_le (by omega)
    have hd2 : xs.drop (min a xs.length) = [] := List.drop_eq_nil_of_le (by omega)
    rw [hd, hd2]
    simp

theorem ceil_step (n i c : Nat) (hc : 0 < c) (hi : i < n) :
    (n - i + c - 1) / c = (n - (i + c) + c - 1) / c + 1 := by
  have h : n - i + c - 1 = (n - i - 1) + c := by omega
  rw [h, Nat.add_div_right _ hc]
  congr 1
  by_cases hle : i + c ≤ n
  · congr 1
    omega
  · rw [Nat.div_eq_of_lt (by omega), Nat.div_eq_of_lt (by omega)]

/-- The invariant of the loop for a positive step `c`: from position `i`, with
enough fuel, the loop returns, and what it appends to `results`, `sent` and
`waves` is determined by the rest of the input. -/
theorem checkMultipleProxiesLoop_spec (world : Nat → ProbeEnv) (proxies : List Proxy)
    (timeout : Int) (c : Nat) (hc : 0 < c) :
    ∀ (fuel i : Nat) (rs : List CheckResult) (sn : List Request) (ws : List (List Proxy)),
      sn.length = min i proxies.length → proxies.length - i < fuel →
      ∃ j, checkMultipleProxiesLoop world proxies timeout (c : Int) fuel
            { i := (i : Int), results := rs, sent := sn, waves := ws } =
          some (.ok
            { i := j,
              results := rs ++ ((proxies.drop i).enumFrom (min i proxies.length)).map
                (fun kp => probeRecord (world kp.1) kp.2 timeout),
              sent := sn ++ (proxies.drop i).map (fun p => probeRequest p timeout),
              waves := ws ++ (List.range ((proxies.length - i + c - 1) / c)).map
                (fun k => (proxies.drop (i + k * c)).take c) }) := by
  intro fuel
  induction fuel with
  | zero => intro i rs sn ws _ h; omega
  | succ fuel ih =>
    intro i rs sn ws hsn hfuel
    unfold checkMultipleProxiesLoop
    by_cases hi : i < proxies.length
    · have hcond : ((i : Int) < (proxies.length : Int)) := by exact_mod_cast hi
      simp only [hcond, if_true]
      rw [jsSlice_natCast]
      have hbase : sn.length = i := by omega
      rw [hbase]
      have hall : promiseAll (((proxies.drop i).take c).enumFrom i |>.map
            (fun kp => checkSingleProxy (world kp.1) kp.2 timeout)) =
          some (.ok ((((proxies.drop i).take c).enumFrom i).map
            (fun kp => probeRecord (world kp.1) kp.2 timeout))) := by
        apply promiseAll_ok
        simp only [List.map_map]
        apply List.map_congr_left
        intro kp _
        exact checkSingleProxy_result _ _ _
      rw [hall]
      dsimp only
      have hsent : ((((proxies.drop i).take c).enumFrom i |>.map
            (fun kp => checkSingleProxy (world kp.1) kp.2 timeout)).map (fun p => p.sent)).flatten =
          ((proxies.drop i).take c).map (fun p => probeRequest p timeout) := by
        generalize (proxies.drop i).take c = l
        generalize i = b
        induction l generalizing b with
        | nil => rfl
        | cons p l ihl =>
          simp only [List.enumFrom_cons, List.map_cons, List.flatten_cons, checkSingleProxy_sent]
          rw [ihl]
          rfl
      rw [hsent]
      have hlen : ((proxies.drop i).take c).length = min (i + c) proxies.length - i := by
        rw [List.length_take, List.length_drop]; omega
      obtain ⟨j, hj⟩ := ih (i + c)
        (rs ++ (((proxies.drop i).take c).enumFrom i).map
            (fun kp => probeRecord (world kp.1) kp.2 timeout))
        (sn ++ ((proxies.drop i).take c).map (fun p => probeRequest p timeout))
        (ws ++ [(proxies.drop i).take c])
        (by rw [List.length_append, List.length_map, hlen]; omega)
        (by omega)
      refine ⟨j, ?_⟩
      have hcast : ((i : Int) + (c : Int)) = ((i + c : Nat) : Int) := by push_cast; rfl
      rw [hcast, hj]
      have hsplit : proxies.drop i = (proxies.drop i).take c ++ proxies.drop (i + c) := by
        rw [← List.drop_drop, List.take_append_drop]
      have hres : ((proxies.drop i).enumFrom (min i proxies.length)).map
            (fun kp => probeRecord (world kp.1) kp.2 timeout) =
          (((proxies.drop i).take c).enumFrom i).map
            (fun kp => probeRecord (world kp.1) kp.2 timeout) ++
          ((proxies.drop (i + c)).enumFrom (min (i + c) proxies.length)).map
            (fun kp => probeRecord (world kp.1) kp.2 timeout) := by
        have hmin : min i proxies.length = i := by omega
        rw [hmin]
        conv_lhs => rw [hsplit]
        rw [List.enumFrom_append, List.map_append, hlen]
        have : i + (min (i + c) proxies.length - i) = min (i + c) proxies.length := by omega
        rw [this]
      have hreq : (proxies.drop i).map (fun p => probeRequest p timeout) =
          ((proxies.drop i).take c).map (fun p => probeRequest p timeout) ++
          (proxies.drop (i + c)).map (fun p => probeRequest p timeout) := by
        conv_lhs => rw [hsplit]
        rw [List.map_append]
      have hwav : (List.range ((proxies.length - i + c - 1) / c)).map
            (fun k => (proxies.drop (i + k * c)).take c) =
          [(proxies.drop i).take c] ++
          (List.range ((proxies.length - (i + c) + c - 1) / c)).map
            (fun k => (proxies.drop (i + c + k * c)).take c) := by
        rw [ceil_step _ _ _ hc hi, List.range_succ_eq_map, List.map_cons, List.map_map]
        simp only [Nat.zero_mul, Nat.add_zero, List.singleton_append, List.cons.injEq, true_and]
        apply List.map_congr_left
        intro k _
        simp only [Function.comp, Nat.succ_eq_add_one]
        congr 2
        rw [Nat.add_mul]
        omega
      rw [hres, hreq, hwav]
      simp only [List.append_assoc]
    · have hcond : ¬ ((i : Int) < (proxies.length : Int)) := by
        intro h; exact hi (by exact_mod_cast h)
      simp only [hcond, if_false]
      refine ⟨(i : Int), ?_⟩
      have hd : proxies.drop i = [] := List.drop_eq_nil_of_le (by omega)
      have hz : (proxies.length - i + c - 1) / c = 0 := Nat.div_eq_of_lt (by omega)
      simp [hd, hz]

/-- With a positive concurrency and more fuel than endpoints, the run returns,
and its final `results`, `sent` and `waves` are determined by the input. -/
theorem checkMultipleProxiesRun_spec (world : Nat → ProbeEnv) (proxies : List Proxy)
    (options : Options) (fuel : Nat) (hc : 0 < options.concurrency.getD 10)
    (hfuel : proxies.length < fuel) :
    ∃ j, checkMultipleProxiesRun world proxies options fuel =
      some (.ok
        { i := j,
          results := proxies.enum.map
            (fun kp => probeRecord (world kp.1) kp.2 (options.timeout.getD 5000)),
          sent := proxies.map (fun p => probeRequest p (options.timeout.getD 5000)),
          waves := (List.range ((proxies.length + (options.concurrency.getD 10).toNat - 1) /
              (options.concurrency.getD 10).toNat)).map
            (fun k => (proxies.drop (k * (options.concurrency.getD 10).toNat)).take
              (options.concurrency.getD 10).toNat) }) := by
  have hcast : options.concurrency.getD 10 = (((options.concurrency.getD 10).toNat : Nat) : Int) :=
    (Int.toNat_of_nonneg (le_of_lt hc)).symm
  have hpos : 0 < (options.concurrency.getD 10).toNat := by omega
  obtain ⟨j, hj⟩ := checkMultipleProxiesLoop_spec world proxies (options.timeout.getD 5000)
    (options.concurrency.getD 10).toNat hpos fuel 0 [] [] [] (by simp) (by omega)
  refine ⟨j, ?_⟩
  unfold checkMultipleProxiesRun
  dsimp only
  rw [hcast]
  simp only [Int.toNat_ofNat]
  simpa [List.enum] using hj

/-- An empty input ends the loop at once, whatever the concurrency. -/
theorem checkMultipleProxiesRun_nil (world : Nat → ProbeEnv) (options : Options) (fuel : Nat)
    (hfuel : 0 < fuel) :
    checkMultipleProxiesRun world [] options fuel =
      some (.ok { i := 0, results := [], sent := [], waves := [] }) := by
  obtain ⟨n, rfl⟩ : ∃ n, fuel = n + 1 := ⟨fuel - 1, by omega⟩
  simp [checkMultipleProxiesRun, checkMultipleProxiesLoop]

/-- With a step of zero the loop never leaves its first state. -/
theorem checkMultipleProxiesLoop_zero_step (world : Nat → ProbeEnv) (proxies : List Proxy)
    (timeout : Int) (hne : proxies ≠ []) (fuel : Nat) :
    ∀ ws, checkMultipleProxiesLoop world proxies timeout 0 fuel
      { i := 0, results := [], sent := [], waves := ws } = none := by
  induction fuel with
  | zero => intro ws; rfl
  | succ fuel ih =>
    intro ws
    unfold checkMultipleProxiesLoop
    have hlen : (0 : Int) < (proxies.length : Int) := by
      have : 0 < proxies.length := List.length_pos.mpr hne
      exact_mod_cast this
    have hslice : jsSlice proxies (0 : Int) (0 + 0) = [] := by
      simp [jsSlice]
    simp only [hlen, if_true, hslice]
    have hall : promiseAll ([] : List (Promise CheckResult)) = some (.ok []) := rfl
    simp only [List.enumFrom_nil, List.map_nil, hall, List.append_nil, List.flatten_nil]
    simpa using ih (ws ++ [[]])

theorem probeRecord_ip (env : ProbeEnv) (proxy : Proxy) (timeout : Int) :
    (probeRecord env proxy timeout).ip = proxy.ip := by
  unfold probeRecord checkSingleProxy
  dsimp only
  cases axiosGet env.wire (probeRequest proxy timeout) <;> rfl

theorem probeRecord_port (env : ProbeEnv) (proxy : Proxy) (timeout : Int) :
    (probeRecord env proxy timeout).port = proxy.port := by
  unfold probeRecord checkSingleProxy
  dsimp only
  cases axiosGet env.wire (probeRequest proxy timeout) <;> rfl

/-! ## C1: length and order of the output -/

/-- C1 (as amended): for every list of endpoints, every outcome and settling
order of the probes, and every positive concurrency (the default 10 included),
or any concurrency when the list is empty, `checkMultipleProxies` returns a
list as long as the input whose `i`-th record carries the ip and port of the
`i`-th endpoint. -/
theorem checkMultipleProxies_length_order (world : Nat → ProbeEnv) (proxies : List Proxy)
    (options : Options) (fuel : Nat)
    (hc : 0 < options.concurrency.getD 10 ∨ proxies = [])
    (hfuel : proxies.length < fuel) :
    ∃ out, checkMultipleProxies world proxies options fuel = some (.ok out) ∧
      out.length = proxies.length ∧
      ∀ (i : Nat) (p : Proxy), proxies[i]? = some p → ∃ r : CheckResult, out[i]? = some r ∧ r.ip = p.ip ∧ r.port = p.port := by
  rcases hc with hc | hnil
  · obtain ⟨j, hj⟩ := checkMultipleProxiesRun_spec world proxies options fuel hc hfuel
    refine ⟨_, by simp only [checkMultipleProxies, hj]; rfl, by simp, ?_⟩
    intro i p hp
    refine ⟨probeRecord (world i) p (options.timeout.getD 5000), ?_, ?_, ?_⟩
    · simp [List.getElem?_map, List.enum, List.getElem?_enumFrom, hp]
    · exact probeRecord_ip _ _ _
    · exact probeRecord_port _ _ _
  · subst hnil
    refine ⟨[], ?_, rfl, ?_⟩
    · simp only [checkMultipleProxies, checkMultipleProxiesRun_nil world options fuel (by omega)]
      rfl
    · intro i p hp
      simp at hp

/-- C1, an instance: five endpoints, concurrency 2, probes that settle in the
reverse of the dispatch order. -/
theorem checkMultipleProxies_length_order_witness :
    ∃ out, checkMultipleProxies
        (fun k => { wire := .response 200, startTime := 0, endTime := 7, checkedAt := 9,
                    settledAt := 10 - k })
        [⟨"10.0.0.1", some 80⟩, ⟨"10.0.0.2", some 81⟩, ⟨"10.0.0.3", some 82⟩,
         ⟨"10.0.0.4", some 83⟩, ⟨"10.0.0.5", some 84⟩]
        { concurrency := some 2 } 6 = some (.ok out) ∧
      out.length = 5 ∧
      ∀ (i : Nat) (p : Proxy), ([⟨"10.0.0.1", some 80⟩, ⟨"10.0.0.2", some 81⟩, ⟨"10.0.0.3", some 82⟩,
         ⟨"10.0.0.4", some 83⟩, ⟨"10.0.0.5", some 84⟩] : List Proxy)[i]? = some p →
        ∃ r : CheckResult, out[i]? = some r ∧ r.ip = p.ip ∧ r.port = p.port :=
  checkMultipleProxies_length_order _ _ _ 6 (Or.inl (by decide)) (by decide)

/-- C1 as stated fails: with concurrency 0 and one endpoint the loop variable
never advances, so `checkMultipleProxies` returns nothing, whatever the fuel. -/
theorem checkMultipleProxies_zero_concurrency_diverges :
    ¬ ∃ fuel out, checkMultipleProxies
        (fun _ => { wire := .response 200, startTime := 0, endTime := 1, checkedAt := 2,
                    settledAt := 0 })
        [⟨"1.2.3.4", some 8080⟩] { concurrency := some 0 } fuel = some out := by
  rintro ⟨fuel, out, h⟩
  simp only [checkMultipleProxies, checkMultipleProxiesRun, Option.getD_some] at h
  rw [checkMultipleProxiesLoop_zero_step _ _ _ (by simp) fuel []] at h
  simp at h

/-! ## C2: the waves -/

theorem flatten_chunks {α : Type} (l : List α) (c m : Nat) :
    ((List.range m).map (fun k => (l.drop (k * c)).take c)).flatten = l.take (m * c) := by
  induction m with
  | zero => simp
  | succ m ih =>
    rw [List.range_succ, List.map_append, List.flatten_append, ih, Nat.succ_mul, List.take_add]
    simp

theorem le_ceil_mul (n c : Nat) (hc : 0 < c) : n ≤ (n + c - 1) / c * c := by
  have h1 := Nat.div_add_mod (n + c - 1) c
  have h2 := Nat.mod_lt (n + c - 1) hc
  rw [Nat.mul_comm] at h1
  omega

theorem mul_lt_of_lt_ceil (n c k : Nat) (hc : 0 < c) (hk : k < (n + c - 1) / c) : k * c < n := by
  have h1 : (k + 1) * c ≤ n + c - 1 := (Nat.le_div_iff_mul_le hc).1 hk
  rw [Nat.succ_mul] at h1
  omega

/-- C2: for `n` endpoints and a positive integer concurrency `c` the probes are
dispatched in `ceil(n/c)` waves; wave `k` is the input slice from `k*c` to
`min((k+1)*c, n)`; every wave is non-empty and has at most `c` items; the
waves concatenated in order are the input. -/
theorem checkMultipleProxies_waves (world : Nat → ProbeEnv) (proxies : List Proxy)
    (options : Options) (fuel c : Nat) (hc : 0 < c)
    (hopt : options.concurrency = some (c : Int)) (hfuel : proxies.length < fuel) :
    ∃ st, checkMultipleProxiesRun world proxies options fuel = some (.ok st) ∧
      st.waves.length = (proxies.length + c - 1) / c ∧
      (∀ k, k < st.waves.length →
        st.waves[k]? = some ((proxies.drop (k * c)).take
          (min ((k + 1) * c) proxies.length - k * c))) ∧
      (∀ w ∈ st.waves, w ≠ [] ∧ w.length ≤ c) ∧
      st.waves.flatten = proxies := by
  have hget : options.concurrency.getD 10 = (c : Int) := by rw [hopt]; rfl
  obtain ⟨j, hj⟩ := checkMultipleProxiesRun_spec world proxies options fuel
    (by rw [hget]; exact_mod_cast hc) hfuel
  rw [hget, Int.toNat_ofNat] at hj
  refine ⟨_, hj, by simp, ?_, ?_, ?_⟩
  · intro k hk
    simp only [List.length_map, List.length_range] at hk
    have hlt := mul_lt_of_lt_ceil _ _ _ hc hk
    simp only [List.getElem?_map, List.getElem?_range hk, Option.map_some', Option.some.injEq,
      List.take_eq_take, List.length_drop]
    rw [Nat.succ_mul]
    omega
  · intro w hw
    simp only [List.mem_map, List.mem_range] at hw
    obtain ⟨k, hk, rfl⟩ := hw
    have hlt := mul_lt_of_lt_ceil _ _ _ hc hk
    constructor
    · intro h
      have hl := congrArg List.length h
      simp only [List.length_take, List.length_drop, List.length_nil] at hl
      omega
    · simp only [List.length_take]
      omega
  · simp only [flatten_chunks]
    exact List.take_of_length_le (le_ceil_mul _ _ hc)

/-- C2, the instance of the specification: five endpoints with concurrency 2
go out in three waves of sizes 2, 2 and 1. -/
theorem checkMultipleProxies_waves_witness :
    ∃ st, checkMultipleProxiesRun
        (fun k => { wire := .response 200, startTime := 0, endTime := 7, checkedAt := 9,
                    settledAt := k })
        [⟨"10.0.0.1", some 80⟩, ⟨"10.0.0.2", some 81⟩, ⟨"10.0.0.3", some 82⟩,
         ⟨"10.0.0.4", some 83⟩, ⟨"10.0.0.5", some 84⟩]
        { concurrency := some 2 } 6 = some (.ok st) ∧
      st.waves.map List.length = [2, 2, 1] := by
  obtain ⟨st, hst, hlen, hk, _, _⟩ := checkMultipleProxies_waves
    (fun k => { wire := .response 200, startTime := 0, endTime := 7, checkedAt := 9,
                settledAt := k })
    [⟨"10.0.0.1", some 80⟩, ⟨"10.0.0.2", some 81⟩, ⟨"10.0.0.3", some 82⟩,
     ⟨"10.0.0.4", some 83⟩, ⟨"10.0.0.5", some 84⟩]
    { concurrency := some 2 } 6 2 (by decide) rfl (by decide)
  refine ⟨st, hst, ?_⟩
  have h0 := hk 0 (by rw [hlen]; decide)
  have h1 := hk 1 (by rw [hlen]; decide)
  have h2 := hk 2 (by rw [hlen]; decide)
  have hl : st.waves.length = 3 := hlen
  match hw : st.waves, hl with
  | [a, b, d], _ =>
    rw [hw] at h0 h1 h2
    simp at h0 h1 h2
    subst h0 h1 h2
    rfl

/-! ## C3, C4, C5: the record of one probe -/

theorem getErrorType_mem (error : AxiosError) : getErrorType error ∈ errorKinds := by
  unfold getErrorType errorKinds
  split_ifs <;> simp

/-- C3 (as amended): for every endpoint, timeout and fate of the request, the
record of `checkSingleProxy` is exactly one of: active with a status code and
a response time that is the difference of the two readings of `Date.now()`,
hence >= 0 exactly when the clock has not stepped back between them; or
inactive with one of the four error types and a null response time. -/
theorem checkSingleProxy_record_shape (env : ProbeEnv) (proxy : Proxy) (timeout : Int) :
    ∃ r, (checkSingleProxy env proxy timeout).result = .ok r ∧
      Xor'
        (r.is_active = true ∧ r.status_code.isSome = true ∧
          ∃ t, r.response_time = some t ∧ t = env.endTime - env.startTime ∧
            (0 ≤ t ↔ env.startTime ≤ env.endTime))
        (r.is_active = false ∧ (∃ kind ∈ errorKinds, r.error_type = some kind) ∧
          r.response_time = none) := by
  unfold checkSingleProxy
  dsimp only
  cases axiosGet env.wire (probeRequest proxy timeout) with
  | ok response =>
    refine ⟨_, rfl, Or.inl ⟨⟨rfl, rfl, _, rfl, rfl, by omega⟩, ?_⟩⟩
    rintro ⟨h, _⟩
    cases h
  | error error =>
    refine ⟨_, rfl, Or.inr ⟨⟨rfl, ⟨_, getErrorType_mem error, rfl⟩, rfl⟩, ?_⟩⟩
    rintro ⟨h, _⟩
    cases h

/-- C3, two instances: a 200 response after 120 ms, and a refused connection. -/
theorem checkSingleProxy_record_shape_witness :
    (∃ r, (checkSingleProxy
        { wire := .response 200, startTime := 1000, endTime := 1120, checkedAt := 1121,
          settledAt := 0 } ⟨"1.2.3.4", some 8080⟩ 5000).result = .ok r ∧
      Xor'
        (r.is_active = true ∧ r.status_code.isSome = true ∧
          ∃ t, r.response_time = some t ∧ t = 1120 - 1000 ∧ (0 ≤ t ↔ (1000 : Int) ≤ 1120))
        (r.is_active = false ∧ (∃ kind ∈ errorKinds, r.error_type = some kind) ∧
          r.response_time = none)) ∧
    (∃ r, (checkSingleProxy
        { wire := .failure ⟨some "ECONNREFUSED", "connect ECONNREFUSED 1.2.3.4:8080"⟩,
          startTime := 1000, endTime := 1000, checkedAt := 1003,
          settledAt := 0 } ⟨"1.2.3.4", some 8080⟩ 5000).result = .ok r ∧
      Xor'
        (r.is_active = true ∧ r.status_code.isSome = true ∧
          ∃ t, r.response_time = some t ∧ t = 1000 - 1000 ∧ (0 ≤ t ↔ (1000 : Int) ≤ 1000))
        (r.is_active = false ∧ (∃ kind ∈ errorKinds, r.error_type = some kind) ∧
          r.response_time = none)) :=
  ⟨checkSingleProxy_record_shape _ _ _, checkSingleProxy_record_shape _ _ _⟩

/-- C3 as stated fails: when the clock steps back by 100 ms while the request
is in flight (1000 before dispatch, 900 on response), a 200 response gives an
active record with `response_time = -100`, which is neither of the two
shapes of the claim. -/
theorem checkSingleProxy_negative_response_time :
    ∃ r, (checkSingleProxy
        { wire := .response 200, startTime := 1000, endTime := 900, checkedAt := 901,
          settledAt := 0 } ⟨"1.2.3.4", some 8080⟩ 5000).result = .ok r ∧
      r.is_active = true ∧ r.response_time = some (-100) ∧
      ¬ Xor'
        (r.is_active = true ∧ r.status_code.isSome = true ∧
          ∃ t, r.response_time = some t ∧ 0 ≤ t)
        (r.is_active = false ∧ (∃ kind ∈ errorKinds, r.error_type = some kind) ∧
          r.response_time = none) := by
  refine ⟨_, rfl, rfl, rfl, ?_⟩
  rintro (⟨⟨_, _, t, ht, hpos⟩, _⟩ | ⟨⟨hact, _⟩, _⟩)
  · have h100 : t = -100 := by
      have := ht.symm
      injection this
    omega
  · cases hact

theorem followRedirects_chain (status : Int) :
    ∀ (k budget : Nat), k ≤ budget →
      followRedirects budget (Wire.redirected^[k] (.response status)) =
        settle { status := status } := by
  intro k
  induction k with
  | zero => intro budget _; cases budget <;> rfl
  | succ k ih =>
    intro budget hk
    obtain ⟨b, rfl⟩ : ∃ b, budget = b + 1 := ⟨budget - 1, by omega⟩
    rw [Function.iterate_succ_apply']
    simp only [followRedirects]
    exact ih b (by omega)

/-- C4 (as amended): whenever the HTTP client resolves the proxied request
with a response, the record is active and its status code is that
response's; the client does so for every 2xx response, reached directly or
through redirects it follows (at most `maxRedirects`). -/
theorem checkSingleProxy_response (env : ProbeEnv) (proxy : Proxy) (timeout : Int) :
    ∃ r, (checkSingleProxy env proxy timeout).result = .ok r ∧
      (∀ response, axiosGet env.wire (probeRequest proxy timeout) = .ok response →
        r.is_active = true ∧ r.status_code = some response.status) ∧
      (∀ (status : Int) (k : Nat), 200 ≤ status ∧ status < 300 → k ≤ maxRedirects →
        env.wire = Wire.redirected^[k] (.response status) →
        r.is_active = true ∧ r.status_code = some status) := by
  have hkey : ∃ r, (checkSingleProxy env proxy timeout).result = .ok r ∧
      ∀ response, axiosGet env.wire (probeRequest proxy timeout) = .ok response →
        r.is_active = true ∧ r.status_code = some response.status := by
    unfold checkSingleProxy
    dsimp only
    cases axiosGet env.wire (probeRequest proxy timeout) with
    | ok response =>
      refine ⟨_, rfl, fun response hr => ?_⟩
      injection hr with hr
      subst hr
      exact ⟨rfl, rfl⟩
    | error error => exact ⟨_, rfl, fun response hr => by cases hr⟩
  obtain ⟨r, hr, hres⟩ := hkey
  refine ⟨r, hr, hres, ?_⟩
  intro status k hs hk hwire
  have hax : axiosGet env.wire (probeRequest proxy timeout) = .ok { status := status } := by
    unfold axiosGet
    rw [hwire, followRedirects_chain status k maxRedirects hk]
    have hv : validateStatus status = true := by
      simp only [validateStatus, Bool.and_eq_true, decide_eq_true_eq]
      exact hs
    simp [settle, hv]
  exact hres _ hax

/-- C4, two instances: a 204 response, and a 302 the client follows to a 200
response; both records are active, with status codes 204 and 200. -/
theorem checkSingleProxy_response_witness :
    (∃ r, (checkSingleProxy
        { wire := .response 204, startTime := 1000, endTime := 1120, checkedAt := 1121,
          settledAt := 0 } ⟨"1.2.3.4", some 8080⟩ 5000).result = .ok r ∧
      r.is_active = true ∧ r.status_code = some 204) ∧
    (∃ r, (checkSingleProxy
        { wire := .redirected (.response 200), startTime := 1000, endTime := 1120,
          checkedAt := 1121, settledAt := 0 } ⟨"1.2.3.4", some 8080⟩ 5000).result = .ok r ∧
      r.is_active = true ∧ r.status_code = some 200) := by
  constructor
  · obtain ⟨r, hr, _, h⟩ := checkSingleProxy_response
      { wire := .response 204, startTime := 1000, endTime := 1120, checkedAt := 1121,
        settledAt := 0 } ⟨"1.2.3.4", some 8080⟩ 5000
    exact ⟨r, hr, h 204 0 (by decide) (by decide) rfl⟩
  · obtain ⟨r, hr, _, h⟩ := checkSingleProxy_response
      { wire := .redirected (.response 200), startTime := 1000, endTime := 1120,
        checkedAt := 1121, settledAt := 0 } ⟨"1.2.3.4", some 8080⟩ 5000
    exact ⟨r, hr, h 200 1 (by decide) (by decide) rfl⟩

/-- C4 as stated fails: a 404 response that comes back through the proxy is
turned into an error by the HTTP client, so the record is inactive and the
status code is not reported. -/
theorem checkSingleProxy_non2xx_inactive :
    ∃ r, (checkSingleProxy
        { wire := .response 404, startTime := 1000, endTime := 1120, checkedAt := 1121,
          settledAt := 0 } ⟨"1.2.3.4", some 8080⟩ 5000).result = .ok r ∧
      r.is_active = false ∧ r.status_code = none ∧ r.error_type = some "unknown" := by
  refine ⟨_, rfl, ?_, ?_, ?_⟩ <;> decide

/-- C5: `getErrorType` gives each error exactly one of the four kinds, tested
in the order timeout, connection_refused, host_not_found, unknown:
`ECONNABORTED` is `timeout`, `ECONNREFUSED` is `connection_refused`,
`ENOTFOUND` is `host_not_found`, and every other error, one without a code
included, is `unknown`. -/
theorem getErrorType_classification (error : AxiosError) :
    getErrorType error ∈ errorKinds ∧
    (error.code = some "ECONNABORTED" → getErrorType error = "timeout") ∧
    (error.code = some "ECONNREFUSED" → getErrorType error = "connection_refused") ∧
    (error.code = some "ENOTFOUND" → getErrorType error = "host_not_found") ∧
    (error.code ≠ some "ECONNABORTED" ∧ error.code ≠ some "ECONNREFUSED" ∧
      error.code ≠ some "ENOTFOUND" → getErrorType error = "unknown") ∧
    (error.code = none → getErrorType error = "unknown") ∧
    (getErrorType error = "timeout" ↔ error.code = some "ECONNABORTED") ∧
    (getErrorType error = "connection_refused" ↔ error.code = some "ECONNREFUSED") ∧
    (getErrorType error = "host_not_found" ↔ error.code = some "ENOTFOUND") := by
  refine ⟨getErrorType_mem error, ?_, ?_, ?_, ?_, ?_, ?_, ?_, ?_⟩
  · intro h; simp [getErrorType, h]
  · intro h; simp [getErrorType, h]
  · intro h; simp [getErrorType, h]
  · rintro ⟨h1, h2, h3⟩; simp [getErrorType, h1, h2, h3]
  · intro h; simp [getErrorType, h]
  · unfold getErrorType; split_ifs <;> simp_all
  · unfold getErrorType; split_ifs <;> simp_all
  · unfold getErrorType; split_ifs <;> simp_all

/-! ## C6, C7: isolation of failures, and the requests issued -/

/-- C6 (as amended): whatever the HTTP client does for each probe,
`checkSingleProxy` does not throw: it settles with a record, inactive with
the error's message when the client raised an error.  With a positive
concurrency (the default 10 included) `checkMultipleProxies` returns
normally, its `i`-th record is the record of the `i`-th probe alone, and so
it is the same in any two runs in which that probe has the same fate,
whatever happens to the other probes. -/
theorem checkMultipleProxies_failure_isolation (world : Nat → ProbeEnv) (proxies : List Proxy)
    (options : Options) (fuel : Nat) (hc : 0 < options.concurrency.getD 10)
    (hfuel : proxies.length < fuel) :
    (∀ (env : ProbeEnv) (proxy : Proxy) (timeout : Int),
      ∃ r, (checkSingleProxy env proxy timeout).result = .ok r ∧
        ∀ error, axiosGet env.wire (probeRequest proxy timeout) = .error error →
          r.is_active = false ∧ r.error_message = some error.message) ∧
    ∃ out, checkMultipleProxies world proxies options fuel = some (.ok out) ∧
      (∀ (i : Nat) (p : Proxy), proxies[i]? = some p →
        ∃ r, out[i]? = some r ∧
          (checkSingleProxy (world i) p (options.timeout.getD 5000)).result = .ok r) ∧
      ∀ (other : Nat → ProbeEnv) (i : Nat), other i = world i →
        ∃ out2, checkMultipleProxies other proxies options fuel = some (.ok out2) ∧
          out2[i]? = out[i]? := by
  constructor
  · intro env proxy timeout
    unfold checkSingleProxy
    dsimp only
    cases axiosGet env.wire (probeRequest proxy timeout) with
    | ok response => exact ⟨_, rfl, fun e he => by cases he⟩
    | error error =>
      refine ⟨_, rfl, fun e he => ?_⟩
      injection he with he
      subst he
      exact ⟨rfl, rfl⟩
  · obtain ⟨j, hj⟩ := checkMultipleProxiesRun_spec world proxies options fuel hc hfuel
    refine ⟨_, by simp only [checkMultipleProxies, hj]; rfl, ?_, ?_⟩
    · intro i p hp
      refine ⟨probeRecord (world i) p (options.timeout.getD 5000), ?_,
        checkSingleProxy_result _ _ _⟩
      simp [List.getElem?_map, List.enum, List.getElem?_enumFrom, hp]
    · intro other i hi
      obtain ⟨j2, hj2⟩ := checkMultipleProxiesRun_spec other proxies options fuel hc hfuel
      refine ⟨_, by simp only [checkMultipleProxies, hj2]; rfl, ?_⟩
      simp only [Except.map, List.getElem?_map, List.enum, List.getElem?_enumFrom, Nat.zero_add]
      cases proxies[i]? with
      | none => rfl
      | some p => simp [hi]

/-- C6, an instance: three probes of which the second times out and the third
is refused, settling in the reverse of the dispatch order; the batch returns
and each record is the one of its own probe. -/
theorem checkMultipleProxies_failure_isolation_witness :
    ∃ out, checkMultipleProxies
        (fun k => { wire := if k = 0 then .response 200
                            else if k = 1 then .failure ⟨some "ECONNABORTED", "timeout of 5000ms exceeded"⟩
                            else .failure ⟨some "ECONNREFUSED", "connect ECONNREFUSED"⟩,
                    startTime := 0, endTime := 7, checkedAt := 9, settledAt := 5 - k })
        [⟨"10.0.0.1", some 80⟩, ⟨"10.0.0.2", some 81⟩, ⟨"10.0.0.3", some 82⟩]
        {} 4 = some (.ok out) ∧
      ∀ (i : Nat) (p : Proxy),
        ([⟨"10.0.0.1", some 80⟩, ⟨"10.0.0.2", some 81⟩, ⟨"10.0.0.3", some 82⟩] : List Proxy)[i]? =
          some p →
        ∃ r, out[i]? = some r ∧
          (checkSingleProxy
            { wire := if i = 0 then .response 200
                      else if i = 1 then .failure ⟨some "ECONNABORTED", "timeout of 5000ms exceeded"⟩
                      else .failure ⟨some "ECONNREFUSED", "connect ECONNREFUSED"⟩,
              startTime := 0, endTime := 7, checkedAt := 9, settledAt := 5 - i }
            p 5000).result = .ok r := by
  obtain ⟨_, out, hout, hrec, _⟩ := checkMultipleProxies_failure_isolation
    (fun k => { wire := if k = 0 then .response 200
                        else if k = 1 then .failure ⟨some "ECONNABORTED", "timeout of 5000ms exceeded"⟩
                        else .failure ⟨some "ECONNREFUSED", "connect ECONNREFUSED"⟩,
                startTime := 0, endTime := 7, checkedAt := 9, settledAt := 5 - k })
    [⟨"10.0.0.1", some 80⟩, ⟨"10.0.0.2", some 81⟩, ⟨"10.0.0.3", some 82⟩]
    {} 4 (by decide) (by decide)
  exact ⟨out, hout, hrec⟩

/-- C6 as stated fails: with concurrency 0, a batch of two probes, the first
refused and the second answered, never completes: `checkMultipleProxies`
returns nothing, whatever the fuel. -/
theorem checkMultipleProxies_batch_never_completes :
    ¬ ∃ fuel out, checkMultipleProxies
        (fun k => { wire := if k = 0 then .failure ⟨some "ECONNREFUSED", "connect ECONNREFUSED"⟩
                            else .response 200,
                    startTime := 0, endTime := 7, checkedAt := 9, settledAt := k })
        [⟨"10.0.0.1", some 80⟩, ⟨"10.0.0.2", some 81⟩] { concurrency := some 0 } fuel =
          some out := by
  rintro ⟨fuel, out, h⟩
  simp only [checkMultipleProxies, checkMultipleProxiesRun, Option.getD_some] at h
  rw [checkMultipleProxiesLoop_zero_step _ _ _ (by simp) fuel []] at h
  simp at h

/-- C7: with a positive integer concurrency `checkMultipleProxies` hands the
HTTP client exactly one request per input endpoint, in input order, each
routed through that endpoint's ip and port and carrying `options.timeout`
(5000 when omitted); an empty input gives an empty output and no request. -/
theorem checkMultipleProxies_requests (world : Nat → ProbeEnv) (proxies : List Proxy)
    (options : Options) (fuel : Nat) (hc : 0 < options.concurrency.getD 10)
    (hfuel : proxies.length < fuel) :
    ∃ st, checkMultipleProxiesRun world proxies options fuel = some (.ok st) ∧
      checkMultipleProxies world proxies options fuel = some (.ok st.results) ∧
      st.sent = proxies.map (fun p =>
        { url := "https://httpbin.org/ip",
          proxyHost := p.ip,
          proxyPort := p.port,
          timeout := options.timeout.getD 5000,
          userAgent := "Mozilla/5.0 (Windows NT 10.0; Win64; x64) AppleWebKit/537.36" }) ∧
      st.sent.length = proxies.length ∧
      st.results.length = proxies.length ∧
      (proxies = [] → st.results = [] ∧ st.sent = []) := by
  obtain ⟨j, hj⟩ := checkMultipleProxiesRun_spec world proxies options fuel hc hfuel
  refine ⟨_, hj, by simp only [checkMultipleProxies, hj]; rfl, rfl, by simp, by simp, ?_⟩
  rintro rfl
  exact ⟨rfl, rfl⟩

/-- C7, two instances: three endpoints with the default options give three
requests with timeout 5000, and an empty input gives none. -/
theorem checkMultipleProxies_requests_witness :
    (∃ st, checkMultipleProxiesRun
        (fun k => { wire := .response 200, startTime := 0, endTime := 7, checkedAt := 9,
                    settledAt := k })
        [⟨"10.0.0.1", some 80⟩, ⟨"10.0.0.2", some 81⟩, ⟨"10.0.0.3", some 82⟩] {} 4 =
          some (.ok st) ∧
      st.sent.map (fun q => (q.proxyHost, q.proxyPort, q.timeout)) =
        [("10.0.0.1", some 80, 5000), ("10.0.0.2", some 81, 5000), ("10.0.0.3", some 82, 5000)]) ∧
    (∃ st, checkMultipleProxiesRun
        (fun k => { wire := .response 200, startTime := 0, endTime := 7, checkedAt := 9,
                    settledAt := k })
        [] { concurrency := some 3 } 1 = some (.ok st) ∧ st.results = [] ∧ st.sent = []) := by
  constructor
  · obtain ⟨st, hst, _, hsent, _⟩ := checkMultipleProxies_requests
      (fun k => { wire := .response 200, startTime := 0, endTime := 7, checkedAt := 9,
                  settledAt := k })
      [⟨"10.0.0.1", some 80⟩, ⟨"10.0.0.2", some 81⟩, ⟨"10.0.0.3", some 82⟩] {} 4
      (by decide) (by decide)
    refine ⟨st, hst, ?_⟩
    rw [hsent]
    rfl
  · obtain ⟨st, hst, _, _, _, _, hnil⟩ := checkMultipleProxies_requests
      (fun k => { wire := .response 200, startTime := 0, endTime := 7, checkedAt := 9,
                  settledAt := k })
      [] { concurrency := some 3 } 1 (by decide) (by decide)
    exact ⟨st, hst, hnil rfl⟩







/-! ## C8: parsing and validation -/

/-- C8 at its own examples: `1.2.3.4:80abc` and `1.2.3.4:80:x` pass
`validateProxy(parseProxyString(s))` as the endpoint `1.2.3.4:80`, because
`parseInt` stops at the first character that is not a digit and the
destructuring drops every piece after the second; `1.2.3.4:0` and
`1.2.3.4:65536` are rejected.  The pattern of `proxyListSchema` rejects the
two strings that pass here. -/
theorem validateProxy_parseProxyString_examples :
    (parseProxyString "1.2.3.4:80abc").map validateProxy =
      .ok { isValid := true, error := none, value := { ip := "1.2.3.4", port := some 80 } } ∧
    (parseProxyString "1.2.3.4:80:x").map validateProxy =
      .ok { isValid := true, error := none, value := { ip := "1.2.3.4", port := some 80 } } ∧
    (parseProxyString "1.2.3.4:0").map (fun p => (validateProxy p).isValid) = .ok false ∧
    (parseProxyString "1.2.3.4:65536").map (fun p => (validateProxy p).isValid) = .ok false ∧
    matchesProxyPattern "1.2.3.4:80abc" = false ∧
    matchesProxyPattern "1.2.3.4:80:x" = false ∧
    matchesProxyPattern "1.2.3.4:80" = true := by
  refine ⟨?_, ?_, ?_, ?_, ?_, ?_, ?_⟩ <;> rfl

/-! ## C9: out-of-range options -/

theorem checkProxyDirectSchemaError_options (body : PostBody)
    (herr : checkProxyDirectSchemaError body = none) :
    1000 ≤ (body.options.getD {}).timeout.getD 5000 ∧
    (body.options.getD {}).timeout.getD 5000 ≤ 30000 ∧
    1 ≤ (body.options.getD {}).concurrency.getD 10 ∧
    (body.options.getD {}).concurrency.getD 10 ≤ 50 := by
  unfold checkProxyDirectSchemaError at herr
  cases hp : body.proxies with
  | none => simp [hp] at herr
  | some ps =>
    simp only [hp] at herr
    cases ho : body.options with
    | none => simp
    | some o =>
      simp only [ho, Option.getD_some] at herr ⊢
      split_ifs at herr
      omega

/-- The POST path of `check-proxy-direct` calls the engine only with options in
range: a timeout (5000 when omitted) in 1000..30000 and a concurrency (10 when
omitted) in 1..50. -/
theorem CheckProxyDirect.beforeCheck_options_in_range (body : PostBody)
    (proxies : List Proxy) (options : Options) (user_id : String)
    (h : CheckProxyDirect.beforeCheck body = .ok (.ok (proxies, options, user_id))) :
    1000 ≤ options.timeout.getD 5000 ∧ options.timeout.getD 5000 ≤ 30000 ∧
    1 ≤ options.concurrency.getD 10 ∧ options.concurrency.getD 10 ≤ 50 := by
  unfold CheckProxyDirect.beforeCheck at h
  cases herr : checkProxyDirectSchemaError body with
  | some message => rw [herr] at h; cases h
  | none =>
    rw [herr] at h
    dsimp only at h
    generalize List.mapM parseProxyString (body.proxies.getD []) = parsed at h
    cases parsed with
    | error e => cases h
    | ok parsed =>
      dsimp only at h
      split_ifs at h <;> simp only [Except.ok.injEq, Prod.mk.injEq, reduceCtorEq] at h
      all_goals
        obtain ⟨_, hopt, _⟩ := h
        subst hopt
        exact checkProxyDirectSchemaError_options body herr

/-- C9 at the failing input: for the body
`{ user_id: 'u1', proxies: ['1.2.3.4:8080'], options: { concurrency: 0 } }`
the handler of `update-proxy-status` passes every check and calls the engine
with concurrency 0, after which it never responds, whatever the fuel; the
POST path of `check-proxy-direct` answers the same proxies and options with
status 400. -/
theorem UpdateProxyStatus.handler_unchecked_options :
    UpdateProxyStatus.beforeCheck
        { user_id := some "u1", proxies := some ["1.2.3.4:8080"],
          options := some { concurrency := some 0 } } =
      .ok (.ok ([{ ip := "1.2.3.4", port := some 8080 }], { concurrency := some 0 }, "u1")) ∧
    (¬ ∃ fuel response, UpdateProxyStatus.handler
        (fun _ => { wire := .response 200, startTime := 0, endTime := 1, checkedAt := 2,
                    settledAt := 0 })
        (fun _ => {}) (fun _ => { fetch := .notFound, write := .ok }) "POST"
        { user_id := some "u1", proxies := some ["1.2.3.4:8080"],
          options := some { concurrency := some 0 } } fuel = some response) ∧
    CheckProxyDirect.handlePostRequest
        (fun _ => { wire := .response 200, startTime := 0, endTime := 1, checkedAt := 2,
                    settledAt := 0 })
        (fun _ => {}) (fun _ => .ok)
        { proxies := some ["1.2.3.4:8080"], options := some { concurrency := some 0 } } 1 =
      some { status := 400,
             body := .error "Invalid request format"
               (some "\"options.concurrency\" must be greater than or equal to 1") } := by
  have hgate : UpdateProxyStatus.beforeCheck
        { user_id := some "u1", proxies := some ["1.2.3.4:8080"],
          options := some { concurrency := some 0 } } =
      .ok (.ok ([{ ip := "1.2.3.4", port := some 8080 }], { concurrency := some 0 }, "u1")) := rfl
  refine ⟨hgate, ?_, rfl⟩
  rintro ⟨fuel, response, h⟩
  unfold UpdateProxyStatus.handler at h
  simp only [hgate] at h
  simp only [checkMultipleProxies, checkMultipleProxiesRun, Option.getD_some] at h
  rw [checkMultipleProxiesLoop_zero_step _ _ _ (by simp) fuel []] at h
  simp at h

/-! ## C10: persistence faults -/

theorem UpdateProxyStatus.updateProxyStatusesLoop_details (db : Nat → RowOutcome)
    (user_id : String) (results : List EnrichedResult) :
    ∀ (k : Nat) (summary : UpdateProxyStatus.Summary) (details : List UpdateProxyStatus.Detail),
      (UpdateProxyStatus.updateProxyStatusesLoop db user_id k results (summary, details)).2 =
        details ++ (results.enumFrom k).map
          (fun kr => UpdateProxyStatus.detailOf db user_id kr.1 kr.2) := by
  induction results with
  | nil => intro k summary details; simp [UpdateProxyStatus.updateProxyStatusesLoop]
  | cons r rest ih =>
    intro k summary details
    unfold UpdateProxyStatus.updateProxyStatusesLoop
    cases hw : UpdateProxyStatus.writeResult (db k) user_id r with
    | ok action =>
      simp only [ih, List.enumFrom_cons, List.map_cons, UpdateProxyStatus.detailOf, hw,
        List.append_assoc, List.singleton_append]
    | error e =>
      simp only [ih, List.enumFrom_cons, List.map_cons, UpdateProxyStatus.detailOf, hw,
        List.append_assoc, List.singleton_append]

theorem addGeoIPAll_toCheckResult (getGeoIP : String → GeoData) (options : Options)
    (results : List CheckResult) :
    (addGeoIPAll getGeoIP options results).map (fun r => r.toCheckResult) = results := by
  unfold addGeoIPAll addGeoIP
  split_ifs
  · rw [List.map_map]
    conv_rhs => rw [← List.map_id results]
    apply List.map_congr_left
    intro r _
    simp only [Function.comp]
    split_ifs <;> rfl
  · rw [List.map_map]
    conv_rhs => rw [← List.map_id results]
    apply List.map_congr_left
    intro r _
    rfl

theorem addGeoIPAll_getElem? (getGeoIP : String → GeoData) (options : Options)
    (results : List CheckResult) (i : Nat) (r : CheckResult) (h : results[i]? = some r) :
    ∃ e, (addGeoIPAll getGeoIP options results)[i]? = some e ∧ e.toCheckResult = r := by
  have hmap := congrArg (fun l => l[i]?) (addGeoIPAll_toCheckResult getGeoIP options results)
  simp only [List.getElem?_map, h] at hmap
  cases he : (addGeoIPAll getGeoIP options results)[i]? with
  | none => simp [he] at hmap
  | some e =>
    refine ⟨e, rfl, ?_⟩
    simpa [he] using hmap

/-- C10 (as amended): failures of the database never change the status of the
response or drop an endpoint from it.  In `check-proxy-direct`, GET and POST,
whatever the inserts do, the handler responds with status 200 and the body
holds every computed result unchanged.  In `update-proxy-status`, whatever
the lookups and writes do, the handler responds with status 200 and
`results` has one entry per computed result, in order, with its ip and port;
the entry holds the whole computed result when its write succeeded, and only
ip, port, the error message and the action `failed` when it did not. -/
theorem persistence_faults_keep_status (getGeoIP : String → GeoData) :
    (∀ (env : ProbeEnv) (db : WriteOutcome) (req : CheckProxyDirect.GetRequest) (proxy : Proxy),
      CheckProxyDirect.requestedProxy req = .ok (.ok proxy) →
      (validateProxy proxy).isValid = true →
      ∃ result enriched, (checkSingleProxy env proxy).result = .ok result ∧
        CheckProxyDirect.handleGetRequest env getGeoIP db req =
          { status := 200, body := .single enriched } ∧
        enriched.toCheckResult = result) ∧
    (∀ (world : Nat → ProbeEnv) (db : Nat → WriteOutcome) (body : PostBody) (fuel : Nat)
        (proxies : List Proxy) (options : Options) (user_id : String)
        (results : List CheckResult),
      CheckProxyDirect.beforeCheck body = .ok (.ok (proxies, options, user_id)) →
      checkMultipleProxies world proxies options fuel = some (.ok results) →
      ∃ total active inactive enriched,
        CheckProxyDirect.handlePostRequest world getGeoIP db body fuel =
          some { status := 200,
                 body := .checked "Proxy check completed" total active inactive enriched } ∧
        enriched.map (fun r => r.toCheckResult) = results) ∧
    (∀ (world : Nat → ProbeEnv) (db : Nat → RowOutcome) (body : PostBody) (fuel : Nat)
        (proxies : List Proxy) (options : Options) (user_id : String)
        (results : List CheckResult),
      UpdateProxyStatus.beforeCheck body = .ok (.ok (proxies, options, user_id)) →
      checkMultipleProxies world proxies options fuel = some (.ok results) →
      ∃ summary details,
        UpdateProxyStatus.handler world getGeoIP db "POST" body fuel =
          some { status := 200,
                 body := .updated "Proxy statuses updated" summary details } ∧
        details.length = results.length ∧
        ∀ (i : Nat) (r : CheckResult), results[i]? = some r →
          ∃ d enriched, details[i]? = some d ∧ enriched.toCheckResult = r ∧
            d.ip = r.ip ∧ d.port = r.port ∧
            (∀ action, UpdateProxyStatus.writeResult (db i) user_id enriched = .ok action →
              d.action = action ∧ d.result = some enriched) ∧
            (∀ error, UpdateProxyStatus.writeResult (db i) user_id enriched = .error error →
              d.action = "failed" ∧ d.result = none ∧ d.error = some error.message)) := by
  refine ⟨?_, ?_, ?_⟩
  · intro env db req proxy hreq hvalid
    refine ⟨probeRecord env proxy 5000, addGeoIP getGeoIP (probeRecord env proxy 5000),
      checkSingleProxy_result _ _ _, ?_, ?_⟩
    · unfold CheckProxyDirect.handleGetRequest
      simp only [hreq, hvalid, checkSingleProxy_result, CheckProxyDirect.respondSingle,
        CheckProxyDirect.saveProxyResult]
      cases dbWrite db <;> rfl
    · unfold addGeoIP
      split_ifs <;> rfl
  · intro world db body fuel proxies options user_id results hgate hrun
    have h : CheckProxyDirect.handlePostRequest world getGeoIP db body fuel =
        some { status := 200,
               body := .checked "Proxy check completed"
                 ((addGeoIPAll getGeoIP options results).length : Int)
                 (((addGeoIPAll getGeoIP options results).filter
                    (fun r => r.is_active)).length : Int)
                 (((addGeoIPAll getGeoIP options results).length : Int) -
                   (((addGeoIPAll getGeoIP options results).filter
                      (fun r => r.is_active)).length : Int))
                 (addGeoIPAll getGeoIP options results) } := by
      unfold CheckProxyDirect.handlePostRequest
      simp only [hgate, hrun, CheckProxyDirect.respondChecked, CheckProxyDirect.saveProxyResults]
      cases CheckProxyDirect.saveProxyResultsLoop db
        (addGeoIPAll getGeoIP options results).length 0 <;> rfl
    exact ⟨_, _, _, _, h, addGeoIPAll_toCheckResult _ _ _⟩
  · intro world db body fuel proxies options user_id results hgate hrun
    refine ⟨(UpdateProxyStatus.updateProxyStatuses db user_id
        (addGeoIPAll getGeoIP options results)).1,
      (UpdateProxyStatus.updateProxyStatuses db user_id
        (addGeoIPAll getGeoIP options results)).2, ?_, ?_, ?_⟩
    · unfold UpdateProxyStatus.handler
      simp only [hgate, hrun, UpdateProxyStatus.respondUpdated]
      rfl
    · simp only [UpdateProxyStatus.updateProxyStatuses,
        UpdateProxyStatus.updateProxyStatusesLoop_details, List.nil_append, List.length_map,
        List.enumFrom_length]
      have := congrArg List.length (addGeoIPAll_toCheckResult getGeoIP options results)
      simpa using this
    · intro i r hr
      obtain ⟨e, he, her⟩ := addGeoIPAll_getElem? getGeoIP options results i r hr
      refine ⟨UpdateProxyStatus.detailOf db user_id i e, e, ?_, her, ?_, ?_, ?_, ?_⟩
      · simp [UpdateProxyStatus.updateProxyStatuses,
          UpdateProxyStatus.updateProxyStatusesLoop_details, List.getElem?_enumFrom, he]
      · unfold UpdateProxyStatus.detailOf
        rw [← her]
        cases UpdateProxyStatus.writeResult (db i) user_id e <;> rfl
      · unfold UpdateProxyStatus.detailOf
        rw [← her]
        cases UpdateProxyStatus.writeResult (db i) user_id e <;> rfl
      · intro action ha
        simp [UpdateProxyStatus.detailOf, ha]
      · intro error ha
        simp [UpdateProxyStatus.detailOf, ha]

/-- C10 as stated fails for `update-proxy-status`: the probe of `1.2.3.4:8080`
succeeds (active, 120 ms), the insert of its row fails, and the response,
still with status 200, holds for that endpoint only ip, port, the error
message and the action `failed`: `is_active`, `response_time` and
`checked_at` are not in it. -/
theorem UpdateProxyStatus.handler_drops_failed_result :
    checkMultipleProxies
        (fun _ => { wire := .response 200, startTime := 1000, endTime := 1120,
                    checkedAt := 1121, settledAt := 0 })
        [{ ip := "1.2.3.4", port := some 8080 }] {} 2 =
      some (.ok [{ ip := "1.2.3.4", port := some 8080, is_active := true,
                   response_time := some 120, status_code := some 200,
                   error_message := none, error_type := none, checked_at := 1121 }]) ∧
    UpdateProxyStatus.handler
        (fun _ => { wire := .response 200, startTime := 1000, endTime := 1120,
                    checkedAt := 1121, settledAt := 0 })
        (fun _ => {})
        (fun _ => { fetch := .notFound, write := .failed { message := "connection lost" } })
        "POST" { user_id := some "u1", proxies := some ["1.2.3.4:8080"] } 2 =
      some { status := 200,
             body := .updated "Proxy statuses updated"
               { total_proxies := 1, updated_existing := 0, created_new := 0,
                 failed_updates := 1 }
               [{ ip := "1.2.3.4", port := some 8080, action := "failed", result := none,
                  error := some "connection lost" }] } :=
  ⟨rfl, rfl⟩

/-! ## C11: the summary of `updateProxyStatuses` -/

theorem UpdateProxyStatus.writeResult_updated (ops : RowOutcome) (user_id : String)
    (result : EnrichedResult) :
    UpdateProxyStatus.writeResult ops user_id result = .ok "updated" ↔
      (∃ id, ops.fetch = .found id) ∧ ops.write = .ok := by
  unfold UpdateProxyStatus.writeResult dbWrite
  cases ops.fetch <;> cases ops.write <;> simp

theorem UpdateProxyStatus.writeResult_created (ops : RowOutcome) (user_id : String)
    (result : EnrichedResult) :
    UpdateProxyStatus.writeResult ops user_id result = .ok "created" ↔
      ops.fetch = .notFound ∧ ops.write = .ok := by
  unfold UpdateProxyStatus.writeResult dbWrite
  cases ops.fetch <;> cases ops.write <;> simp

theorem UpdateProxyStatus.writeResult_action (ops : RowOutcome) (user_id : String)
    (result : EnrichedResult) (action : String)
    (h : UpdateProxyStatus.writeResult ops user_id result = .ok action) :
    action = "updated" ∨ action = "created" := by
  unfold UpdateProxyStatus.writeResult dbWrite at h
  cases hf : ops.fetch <;> cases hw : ops.write <;> simp [hf, hw] at h <;> simp [← h]

/-- The action of the entry appended for position `k`, by the database's
behaviour there. -/
theorem UpdateProxyStatus.detailOf_action (db : Nat → RowOutcome) (user_id : String) (k : Nat)
    (result : EnrichedResult) :
    ((UpdateProxyStatus.detailOf db user_id k result).action = "updated" ∨
      (UpdateProxyStatus.detailOf db user_id k result).action = "created" ∨
      (UpdateProxyStatus.detailOf db user_id k result).action = "failed") ∧
    ((UpdateProxyStatus.detailOf db user_id k result).action = "updated" ↔
      (∃ id, (db k).fetch = .found id) ∧ (db k).write = .ok) ∧
    ((UpdateProxyStatus.detailOf db user_id k result).action = "created" ↔
      (db k).fetch = .notFound ∧ (db k).write = .ok) := by
  rw [← UpdateProxyStatus.writeResult_updated (db k) user_id result,
    ← UpdateProxyStatus.writeResult_created (db k) user_id result]
  unfold UpdateProxyStatus.detailOf
  cases hw : UpdateProxyStatus.writeResult (db k) user_id result with
  | ok action =>
    rcases UpdateProxyStatus.writeResult_action _ _ _ _ hw with h | h <;> subst h <;> simp
  | error e => simp

/-- The counters after the loop: each one has grown by the number of appended
entries that carry its action. -/
theorem UpdateProxyStatus.updateProxyStatusesLoop_summary (db : Nat → RowOutcome)
    (user_id : String) (results : List EnrichedResult) :
    ∀ (k : Nat) (summary : UpdateProxyStatus.Summary) (details : List UpdateProxyStatus.Detail),
      (UpdateProxyStatus.updateProxyStatusesLoop db user_id k results (summary, details)).1 =
        { total_proxies := summary.total_proxies,
          updated_existing := summary.updated_existing +
            ((results.enumFrom k).map
              (fun kr => UpdateProxyStatus.detailOf db user_id kr.1 kr.2)).countP
              (fun d => decide (d.action = "updated")),
          created_new := summary.created_new +
            ((results.enumFrom k).map
              (fun kr => UpdateProxyStatus.detailOf db user_id kr.1 kr.2)).countP
              (fun d => decide (d.action = "created")),
          failed_updates := summary.failed_updates +
            ((results.enumFrom k).map
              (fun kr => UpdateProxyStatus.detailOf db user_id kr.1 kr.2)).countP
              (fun d => decide (d.action = "failed")) } := by
  induction results with
  | nil => intro k summary details; simp [UpdateProxyStatus.updateProxyStatusesLoop]
  | cons r rest ih =>
    intro k summary details
    unfold UpdateProxyStatus.updateProxyStatusesLoop
    cases hw : UpdateProxyStatus.writeResult (db k) user_id r with
    | ok action =>
      rcases UpdateProxyStatus.writeResult_action _ _ _ _ hw with h | h <;> subst h <;>
        simp [ih, UpdateProxyStatus.detailOf, hw, List.countP_cons] <;> omega
    | error e =>
      simp [ih, UpdateProxyStatus.detailOf, hw, List.countP_cons]
      omega

theorem UpdateProxyStatus.countP_actions (details : List UpdateProxyStatus.Detail)
    (h : ∀ d ∈ details, d.action = "updated" ∨ d.action = "created" ∨ d.action = "failed") :
    details.countP (fun d => decide (d.action = "updated")) +
      details.countP (fun d => decide (d.action = "created")) +
      details.countP (fun d => decide (d.action = "failed")) = details.length := by
  induction details with
  | nil => rfl
  | cons d rest ih =>
    have hrest := ih (fun x hx => h x (List.mem_cons_of_mem _ hx))
    rcases h d (List.mem_cons_self _ _) with hd | hd | hd <;>
      simp [List.countP_cons, hd] <;> omega

/-- C11: for every list of results and every behaviour of the database
(record found or not, lookup, update or insert succeeding, failing or
throwing), `updateProxyStatuses` returns a summary with `total_proxies =
results.length` and `updated_existing + created_new + failed_updates =
total_proxies`, and a list `details` of the same length whose `i`-th entry
has the ip and port of the `i`-th result and an action that is `updated`,
`created` or `failed`: `updated` exactly when the record was found and the
update succeeded, `created` exactly when it was not found and the insert
succeeded; each counter is the number of entries with its action. -/
theorem UpdateProxyStatus.updateProxyStatuses_summary (db : Nat → RowOutcome)
    (user_id : String) (results : List EnrichedResult) :
    (UpdateProxyStatus.updateProxyStatuses db user_id results).1.total_proxies = results.length ∧
    (UpdateProxyStatus.updateProxyStatuses db user_id results).1.updated_existing +
      (UpdateProxyStatus.updateProxyStatuses db user_id results).1.created_new +
      (UpdateProxyStatus.updateProxyStatuses db user_id results).1.failed_updates =
        (UpdateProxyStatus.updateProxyStatuses db user_id results).1.total_proxies ∧
    (UpdateProxyStatus.updateProxyStatuses db user_id results).2.length = results.length ∧
    (∀ (i : Nat) (r : EnrichedResult), results[i]? = some r →
      ∃ d, (UpdateProxyStatus.updateProxyStatuses db user_id results).2[i]? = some d ∧
        d.ip = r.ip ∧ d.port = r.port ∧
        (d.action = "updated" ∨ d.action = "created" ∨ d.action = "failed") ∧
        (d.action = "updated" ↔ (∃ id, (db i).fetch = .found id) ∧ (db i).write = .ok) ∧
        (d.action = "created" ↔ (db i).fetch = .notFound ∧ (db i).write = .ok)) ∧
    (UpdateProxyStatus.updateProxyStatuses db user_id results).1.updated_existing =
      (UpdateProxyStatus.updateProxyStatuses db user_id results).2.countP
        (fun d => decide (d.action = "updated")) ∧
    (UpdateProxyStatus.updateProxyStatuses db user_id results).1.created_new =
      (UpdateProxyStatus.updateProxyStatuses db user_id results).2.countP
        (fun d => decide (d.action = "created")) ∧
    (UpdateProxyStatus.updateProxyStatuses db user_id results).1.failed_updates =
      (UpdateProxyStatus.updateProxyStatuses db user_id results).2.countP
        (fun d => decide (d.action = "failed")) := by
  have hact : ∀ d ∈ (results.enumFrom 0).map
      (fun kr => UpdateProxyStatus.detailOf db user_id kr.1 kr.2),
      d.action = "updated" ∨ d.action = "created" ∨ d.action = "failed" := by
    intro d hd
    obtain ⟨kr, _, rfl⟩ := List.mem_map.1 hd
    exact (UpdateProxyStatus.detailOf_action db user_id kr.1 kr.2).1
  have hsum := UpdateProxyStatus.countP_actions _ hact
  simp only [List.length_map, List.enumFrom_length] at hsum
  simp only [UpdateProxyStatus.updateProxyStatuses,
    UpdateProxyStatus.updateProxyStatusesLoop_summary,
    UpdateProxyStatus.updateProxyStatusesLoop_details, List.nil_append, Nat.zero_add,
    List.length_map, List.enumFrom_length, true_and]
  refine ⟨by omega, ?_, trivial⟩
  intro i r hr
  refine ⟨UpdateProxyStatus.detailOf db user_id i r, ?_, ?_, ?_,
    UpdateProxyStatus.detailOf_action db user_id i r⟩
  · simp [List.getElem?_enumFrom, hr]
  · unfold UpdateProxyStatus.detailOf
    cases UpdateProxyStatus.writeResult (db i) user_id r <;> rfl
  · unfold UpdateProxyStatus.detailOf
    cases UpdateProxyStatus.writeResult (db i) user_id r <;> rfl

/-- C11, an instance: five results of which the first is updated, the second
created, and the other three fail (update refused, lookup throws, insert
throws). -/
theorem UpdateProxyStatus.updateProxyStatuses_summary_example :
    (UpdateProxyStatus.updateProxyStatuses
        (fun k => if k = 0 then { fetch := .found 7, write := .ok }
                  else if k = 1 then { fetch := .notFound, write := .ok }
                  else if k = 2 then { fetch := .found 3, write := .failed { message := "e1" } }
                  else if k = 3 then { fetch := .threw { message := "e2" }, write := .ok }
                  else { fetch := .notFound, write := .threw { message := "e3" } })
        "u1"
        ((List.range 5).map (fun k =>
          { ip := "10.0.0.1", port := some (80 + (k : Int)), is_active := false,
            response_time := none, status_code := none, error_message := some "timeout",
            error_type := some "timeout", checked_at := 0, geo := none }))).1 =
      { total_proxies := 5, updated_existing := 1, created_new := 1, failed_updates := 3 } ∧
    ((UpdateProxyStatus.updateProxyStatuses
        (fun k => if k = 0 then { fetch := .found 7, write := .ok }
                  else if k = 1 then { fetch := .notFound, write := .ok }
                  else if k = 2 then { fetch := .found 3, write := .failed { message := "e1" } }
                  else if k = 3 then { fetch := .threw { message := "e2" }, write := .ok }
                  else { fetch := .notFound, write := .threw { message := "e3" } })
        "u1"
        ((List.range 5).map (fun k =>
          { ip := "10.0.0.1", port := some (80 + (k : Int)), is_active := false,
            response_time := none, status_code := none, error_message := some "timeout",
            error_type := some "timeout", checked_at := 0, geo := none }))).2.map
      (fun d => (d.port, d.action))) =
      [(some 80, "updated"), (some 81, "created"), (some 82, "failed"), (some 83, "failed"),
       (some 84, "failed")] :=
  ⟨rfl, rfl⟩

end ProxyChecker
